import Mathlib

/-!
# Autonomous ADDIE Pipeline Orchestrator — verification development

Shallow embedding of the pipeline orchestrator of `backend/apps/genie`
(`tasks.py`, `models.py`, `views.py`).  Database rows become Lean
structures, the Django ORM state becomes an explicit `DB` record threaded
through the operations, wall-clock / monotonic time becomes a natural
number of milliseconds carried in the `DB`, and the six external phase
work functions (`ingest_project_task`, ..., `evaluate_project_task`)
become an oracle parameter `WorkFn`.  Python strings stay strings and
floating point scores become exact rationals (every score the gate can
produce is a multiple of 1/1000, so Python `round(x, 3)` is exact).
-/

namespace Genie

/-- `PIPELINE_PHASES` from tasks.py. -/
def PIPELINE_PHASES : List String := ["ingest", "analyze", "design", "develop", "implement", "evaluate"]

/-- `RUN_STATE_BY_PHASE` from tasks.py: the dict is only ever indexed with a
member of `PIPELINE_PHASES`; the final branch is the `evaluate` entry. -/
def RUN_STATE_BY_PHASE (phase : String) : String :=
  if phase = "ingest" then "ingesting"
  else if phase = "analyze" then "analyzing"
  else if phase = "design" then "designing"
  else if phase = "develop" then "developing"
  else if phase = "implement" then "implementing"
  else "evaluating"

/-- `_phase_index` from tasks.py: `PIPELINE_PHASES.index(phase)`, with the
`ValueError` branch returning 0. -/
def phase_index (phase : String) : Nat :=
  if PIPELINE_PHASES.contains phase then PIPELINE_PHASES.indexOf phase else 0

/-- Python `round(x, 3)` (exact on every value the gate produces, all of
which are integer multiples of 1/1000). -/
def round3 (q : ℚ) : ℚ := (round (q * 1000) : ℤ) / 1000

/-- One entry of a gate's `checks` list: `{'name': ..., 'passed': ..., 'details': ...}`.
The `details` mapping is write-only diagnostic payload and is omitted. -/
structure Check where
  name : String
  passed : Bool
deriving DecidableEq

/-- A knowledge document as the orchestrator sees it: only its `status`
field is read by the ingest gate. -/
structure KnowledgeDocument where
  status : String
deriving DecidableEq

/-- Gate-relevant projection of the free-form `phases_data` JSON blob on
`ELSProject`.  `_evaluate_stage_gate` reads exactly these fields:
`analyze.objective_candidates` (only its length), `design.assessment_strategy`
(only its truthiness), `develop.review_required`, `implement.created_enrollments`
and `evaluate.outcome_package` (only its truthiness); absent keys give the
Python defaults `[]`, `{}`, `False`, `0`, falsy. -/
structure PhasesData where
  analyze_objective_candidates : Nat := 0
  design_has_assessment_strategy : Bool := false
  develop_review_required : Bool := false
  implement_created_enrollments : Int := 0
  evaluate_has_outcome_package : Bool := false
deriving DecidableEq

/-- The `ELSProject` row (models.py), restricted to the fields the
orchestrator reads or writes.  Run ids are opaque; we use `Nat`. -/
structure ELSProject where
  id : String := "project"
  current_phase : String := "ingest"
  run_state : String := "idle"
  current_run_id : Option Nat := none
  current_idempotency_key : String := ""
  current_correlation_id : String := ""
  run_attempt : Int := 0
  run_started_at : Option Nat := none
  run_completed_at : Option Nat := none
  last_error_code : String := ""
  last_error_message : String := ""
  phases_data : PhasesData := {}
  knowledge_documents : List KnowledgeDocument := []
deriving DecidableEq

/-- The `ELSProjectPhase` row (models.py): one per (project, phase). -/
structure ELSProjectPhase where
  phase : String
  status : String := "pending"
  started_at : Option Nat := none
  completed_at : Option Nat := none
  confidence_score : Option ℚ := none
  risk_score : Option ℚ := none
  quality_checks : List Check := []
  gate_result : String := "pending"
deriving DecidableEq

/-- The `ELSProjectException` row (models.py). -/
structure ELSProjectException where
  phase : String
  reason_code : String
  reason_message : String
  confidence_score : ℚ
  risk_score : ℚ
  status : String
  priority : String
  due_at : Nat
  resolved_by : Option String := none
  resolution_notes : String := ""
  resolved_at : Option Nat := none
deriving DecidableEq

/-- The status choices declared on `ELSProjectRunMetric` in models.py. -/
def RUN_METRIC_STATUSES : List String := ["success", "failed", "exception_required"]

/-- The `ELSProjectRunMetric` row (models.py), restricted to the fields the
orchestrator writes; the free-form `metadata` dict is write-only diagnostic
payload and is omitted. -/
structure ELSProjectRunMetric where
  run_id : Nat
  phase : String
  status : String
  duration_ms : Nat
  quality_score : Option ℚ := none
deriving DecidableEq

/-- Ghost instrumentation: the observable actions of one orchestrator
execution, used to state ordering properties. -/
inductive Event where
  | workInvoked (phase : String)
  | gateApplied (phase : String) (verdict : String)
  | phaseSkipped (phase : String)
  | runStateSet (state : String)
deriving DecidableEq

/-- The database state for one project: its row, its phase records, its
exceptions and metrics, plus a clock (milliseconds), a fresh-run-id counter
standing in for `uuid.uuid4()`, and the ghost event trace. -/
structure DB where
  project : ELSProject
  phase_records : List ELSProjectPhase := []
  exceptions : List ELSProjectException := []
  metrics : List ELSProjectRunMetric := []
  now : Nat := 0
  next_run_id : Nat := 0
  trace : List Event := []
deriving DecidableEq

/-- `timedelta(days=2)` in milliseconds. -/
def twoDaysMs : Nat := 172800000

def getPhaseRecord (db : DB) (phase : String) : Option ELSProjectPhase :=
  db.phase_records.find? (fun r => r.phase == phase)

/-- The `status` of the `ELSProjectPhase` row for `phase`, if the row exists. -/
def phaseRecordStatus (db : DB) (phase : String) : Option String :=
  (getPhaseRecord db phase).map (fun r => r.status)

/-- `ELSProjectPhase.objects.get_or_create(project=..., phase=...)`. -/
def getOrCreatePhase (db : DB) (phase : String) : ELSProjectPhase × DB :=
  match db.phase_records.find? (fun r => r.phase == phase) with
  | some r => (r, db)
  | none =>
    let r : ELSProjectPhase := { phase := phase }
    (r, { db with phase_records := db.phase_records ++ [r] })

/-- `record.save()` on a phase record obtained from `getOrCreatePhase`. -/
def savePhaseRecord (db : DB) (r : ELSProjectPhase) : DB :=
  { db with phase_records := db.phase_records.map (fun x => if x.phase == r.phase then r else x) }

/-- The record mutation performed by `_touch_phase`: write the status, set
`started_at` once on `in_progress`, set `completed_at` once on `completed`,
and stamp `completed_at` on the halting statuses. -/
def touchedRecord (now : Nat) (r0 : ELSProjectPhase) (status : String) : ELSProjectPhase :=
  let r := { r0 with status := status }
  let r := if status == "in_progress" && r.started_at.isNone then { r with started_at := some now } else r
  let r := if status == "completed" && r.completed_at.isNone then { r with completed_at := some now } else r
  if status == "failed" || status == "exception_required" || status == "canceled" then
    { r with completed_at := some now } else r

/-- `_touch_phase` from tasks.py: get-or-create the (project, phase) row,
mutate it, save. -/
def touch_phase (db : DB) (phase status : String) : DB :=
  let rdb := getOrCreatePhase db phase
  savePhaseRecord rdb.2 (touchedRecord rdb.2.now rdb.1 status)

/-- The six in-flight run states. -/
def IN_FLIGHT_STATES : List String :=
  ["ingesting", "analyzing", "designing", "developing", "implementing", "evaluating"]

/-- `_set_project_run_state` from tasks.py.  Optional arguments become
`Option` parameters (a `none` models an omitted keyword argument); note the
error fields are overwritten on every call, with `""` as the Python default.
Emits a ghost `runStateSet` event. -/
def set_project_run_state (db : DB) (run_state : String) (run_id : Option Nat)
    (idem_key : Option String) (corr_id : Option String)
    (error_code error_message : String) (completed : Bool) : DB :=
  let p := db.project
  let p := { p with run_state := run_state }
  let p := match run_id with | some r => { p with current_run_id := some r } | none => p
  let p := match idem_key with | some k => { p with current_idempotency_key := k } | none => p
  let p := match corr_id with | some c => { p with current_correlation_id := c } | none => p
  let p := if IN_FLIGHT_STATES.contains run_state && p.run_started_at.isNone then
      { p with run_started_at := some db.now } else p
  let p := if completed then { p with run_completed_at := some db.now } else p
  let p := { p with last_error_code := error_code, last_error_message := error_message }
  { db with project := p, trace := db.trace ++ [Event.runStateSet run_state] }

/-- `_record_phase_metric` from tasks.py: `duration_ms` is the elapsed
monotonic time since `started_at`, floored at zero (natural subtraction). -/
def record_phase_metric (db : DB) (runId : Nat) (phase : String) (started : Nat)
    (status : String) (quality : Option ℚ) : DB :=
  { db with metrics := db.metrics ++
      [{ run_id := runId, phase := phase, status := status,
         duration_ms := db.now - started, quality_score := quality }] }

/-- `_default_gate` from tasks.py. -/
def default_gate (phase : String) (checks : List Check) : ℚ × ℚ :=
  if checks.isEmpty then (0.85, 0.2)
  else
    let failed := checks.filter (fun c => !c.passed)
    let confidence := max 0.05 (1 - 0.2 * (failed.length : ℚ))
    let risk := min 1 (0.15 * (failed.length : ℚ))
    if phase == "develop" && !failed.isEmpty then
      (round3 (min confidence 0.58), round3 (max risk 0.72))
    else
      (round3 confidence, round3 risk)

/-- `_evaluate_stage_gate` from tasks.py: per-phase checks computed from the
project's documents / `phases_data`, then scoring via `_default_gate`, the
verdict rule (any failed check gives `exception_required` for `develop` and
`fail` otherwise), and the reason code cleared on `pass`. -/
def evaluate_stage_gate (project : ELSProject) (phase : String) :
    String × ℚ × ℚ × List Check × String :=
  let cr : List Check × String :=
    if phase == "ingest" then
      let docs := project.knowledge_documents
      let indexed := docs.filter (fun d => d.status == "indexed")
      ([{ name := "documents_indexed",
          passed := docs.length == indexed.length && docs.length > 0 }],
       if docs.length ≠ indexed.length then "INGEST_INDEX_INCOMPLETE" else "")
    else if phase == "analyze" then
      let n := project.phases_data.analyze_objective_candidates
      ([{ name := "objective_candidates_present", passed := n > 0 }],
       if n = 0 then "ANALYZE_OBJECTIVES_MISSING" else "")
    else if phase == "design" then
      let strategy := project.phases_data.design_has_assessment_strategy
      ([{ name := "assessment_strategy_generated", passed := strategy }],
       if !strategy then "DESIGN_STRATEGY_MISSING" else "")
    else if phase == "develop" then
      let review := project.phases_data.develop_review_required
      ([{ name := "quality_review_required", passed := !review }],
       if review then "DEVELOP_QUALITY_REVIEW_REQUIRED" else "")
    else if phase == "implement" then
      let created := project.phases_data.implement_created_enrollments
      ([{ name := "enrollments_created", passed := created > 0 }],
       if created ≤ 0 then "IMPLEMENT_NO_ENROLLMENTS" else "")
    else if phase == "evaluate" then
      let outcome := project.phases_data.evaluate_has_outcome_package
      ([{ name := "outcome_package_generated", passed := outcome }],
       if !outcome then "EVALUATE_OUTCOME_PACKAGE_MISSING" else "")
    else ([], "")
  let checks := cr.1
  let conf_risk := default_gate phase checks
  let gate_result :=
    if checks.any (fun c => !c.passed) then
      (if phase == "develop" then "exception_required" else "fail")
    else "pass"
  let reason_code := if gate_result == "pass" then "" else cr.2
  (gate_result, conf_risk.1, conf_risk.2, checks, reason_code)

def gateVerdict (p : ELSProject) (phase : String) : String := (evaluate_stage_gate p phase).1
def gateConfidence (p : ELSProject) (phase : String) : ℚ := (evaluate_stage_gate p phase).2.1
def gateRisk (p : ELSProject) (phase : String) : ℚ := (evaluate_stage_gate p phase).2.2.1
def gateChecks (p : ELSProject) (phase : String) : List Check := (evaluate_stage_gate p phase).2.2.2.1
def gateReason (p : ELSProject) (phase : String) : String := (evaluate_stage_gate p phase).2.2.2.2

/-- `_apply_gate_result` from tasks.py. -/
def apply_gate_result (db : DB) (phase gate_result : String)
    (confidence risk : ℚ) (checks : List Check) : DB :=
  let rdb := getOrCreatePhase db phase
  let r := { rdb.1 with
    confidence_score := some confidence, risk_score := some risk,
    quality_checks := checks, gate_result := gate_result }
  let r :=
    if gate_result == "pass" then
      (if r.status == "in_progress" then { r with status := "completed" } else r)
    else if gate_result == "exception_required" then { r with status := "exception_required" }
    else { r with status := "failed" }
  savePhaseRecord rdb.2 r

/-- `_raise_project_exception` from tasks.py: priority from the risk score,
`due_at = now + 2 days`, status always `open`. -/
def raise_project_exception (phase reason_code reason_message : String)
    (confidence risk : ℚ) (now : Nat) : ELSProjectException :=
  let priority := if risk ≥ 0.85 then "critical" else if risk ≥ 0.7 then "high" else "medium"
  { phase := phase
    reason_code := if reason_code == "" then "QUALITY_GATE_EXCEPTION" else reason_code
    reason_message := reason_message
    confidence_score := confidence, risk_score := risk
    status := "open", priority := priority, due_at := now + twoDaysMs }

/-- Python `str.strip()` on the ASCII whitespace the idempotency keys can
carry, written on the character list so that it is kernel-computable. -/
def pyStrip (s : String) : String :=
  String.mk (((s.data.dropWhile Char.isWhitespace).reverse.dropWhile Char.isWhitespace).reverse)

/-- The outcome of one external phase work function
(`ingest_project_task`, ..., `evaluate_project_task`).  Each of the six
tasks either reports `missing` (the project row vanished), or performs its
domain work — updating the project's `phases_data` and, for ingest, the
document statuses, while time passes — marks its own phase record
`completed` via `_touch_phase`, and returns `completed`.  The domain work
itself is an external collaborator; only its observable effect on the
orchestrator's state is represented. -/
inductive WorkResult where
  | missing
  | completed (pd : PhasesData) (docs : List KnowledgeDocument) (dt : Nat)
deriving DecidableEq

/-- The `PhaseWorkRegistry` boundary (`_run_phase` in tasks.py): an oracle
mapping a phase and the database state at call time to the work outcome. -/
def WorkFn : Type := String → DB → WorkResult

/-- The dict returned by the orchestrator tasks, as a record of the keys
they can carry. -/
structure RunResult where
  status : String
  run_id : Option Nat := none
  run_state : Option String := none
  phase : Option String := none
  error_code : Option String := none
  exception_id : Option Nat := none
  reason_code : Option String := none
  idempotency_key : Option String := none
deriving DecidableEq

/-- Whether one iteration of the pipeline loop halted the run (returning a
result) or passed control to the next phase. -/
inductive StepOutcome where
  | halted (db : DB) (res : RunResult)
  | passed (db : DB)
deriving DecidableEq

/-- Lines 1022–1024 of tasks.py: set `current_phase`, then persist the
phase's in-flight run state. -/
def preWorkDb (runId : Nat) (db : DB) (phase : String) : DB :=
  set_project_run_state { db with project := { db.project with current_phase := phase } }
    (RUN_STATE_BY_PHASE phase) (some runId) none none "" "" false

/-- The database state at the moment the phase work function is called
(after `_touch_phase(..., 'in_progress')`); also emits the ghost
`workInvoked` event. -/
def workCallDb (runId : Nat) (db : DB) (phase : String) : DB :=
  let db1 := touch_phase (preWorkDb runId db phase) phase "in_progress"
  { db1 with trace := db1.trace ++ [Event.workInvoked phase] }

/-- The `skip_completed` guard of the pipeline loop (line 1027 of tasks.py).
It reads the phase record; the run-state saves preceding it in the loop do
not touch phase rows, so it is evaluated on the incoming state. -/
def skipsPhase (skip_completed : Bool) (db : DB) (phase : String) : Bool :=
  skip_completed && (phaseRecordStatus db phase == some "completed")

/-- One iteration of the pipeline loop of
`run_autonomous_addie_pipeline_task` (lines 1020–1122 of tasks.py). -/
def runPhaseStep (work : WorkFn) (runId : Nat) (skip_completed : Bool)
    (db : DB) (phase : String) : StepOutcome :=
  let phaseStarted := db.now
  let db1 := preWorkDb runId db phase
  if skipsPhase skip_completed db phase then
    let db2 := record_phase_metric db1 runId phase phaseStarted "success" none
    .passed { db2 with trace := db2.trace ++ [Event.phaseSkipped phase] }
  else
    let db2 := workCallDb runId db phase
    match work phase db2 with
    | .missing =>
      let db3 := touch_phase db2 phase "failed"
      let db3 := set_project_run_state db3 "failed" (some runId) none none
        "PHASE_EXECUTION_MISSING" (phase ++ " execution returned missing") true
      let db3 := record_phase_metric db3 runId phase phaseStarted "failed" none
      .halted db3 { status := "failed", run_id := some runId, phase := some phase,
                    error_code := some "PHASE_EXECUTION_MISSING" }
    | .completed pd docs dt =>
      let db3 := { db2 with
        now := db2.now + dt,
        project := { db2.project with phases_data := pd, knowledge_documents := docs } }
      let db3 := touch_phase db3 phase "completed"
      let g := evaluate_stage_gate db3.project phase
      let gate_result := g.1
      let confidence := g.2.1
      let risk := g.2.2.1
      let checks := g.2.2.2.1
      let reason_code := g.2.2.2.2
      let db4 := apply_gate_result db3 phase gate_result confidence risk checks
      let db4 := { db4 with trace := db4.trace ++ [Event.gateApplied phase gate_result] }
      let metric_status := if gate_result == "pass" then "success" else gate_result
      let db4 := record_phase_metric db4 runId phase phaseStarted metric_status (some confidence)
      if gate_result == "exception_required" then
        let exc := raise_project_exception phase
          (if reason_code == "" then "QUALITY_GATE_EXCEPTION" else reason_code)
          ("Quality gate routed " ++ phase ++ " to exception review.") confidence risk db4.now
        let excId := db4.exceptions.length
        let db5 := { db4 with exceptions := db4.exceptions ++ [exc] }
        let db5 := set_project_run_state db5 "exception_required" (some runId) none none
          exc.reason_code exc.reason_message true
        .halted db5 { status := "exception_required", run_id := some runId, phase := some phase,
                      exception_id := some excId, reason_code := some exc.reason_code }
      else if gate_result == "fail" then
        let ec := if reason_code == "" then "QUALITY_GATE_FAILED" else reason_code
        let db5 := set_project_run_state db4 "failed" (some runId) none none ec
          ("Quality gate failed at " ++ phase ++ ".") true
        .halted db5 { status := "failed", run_id := some runId, phase := some phase,
                      error_code := some ec }
      else
        .passed db4

/-- The `for phase in phase_sequence` loop of
`run_autonomous_addie_pipeline_task`, followed by the all-phases-passed
epilogue (line 1124 of tasks.py). -/
def run_pipeline_phases (work : WorkFn) (runId : Nat) (skip_completed : Bool) :
    List String → DB → DB × RunResult
  | [], db =>
      let db := set_project_run_state db "completed" (some runId) none none "" "" true
      (db, { status := "completed", run_id := some runId, run_state := some "completed" })
  | phase :: rest, db =>
      match runPhaseStep work runId skip_completed db phase with
      | .halted dbh res => (dbh, res)
      | .passed dbp => run_pipeline_phases work runId skip_completed rest dbp

/-- The run states for which a matching idempotency key short-circuits
`StartRun` (lines 978–985 of tasks.py). -/
def ACTIVE_RUN_STATES : List String :=
  ["queued", "ingesting", "analyzing", "designing", "developing", "implementing", "evaluating",
   "completed", "exception_required"]

/-- `run_autonomous_addie_pipeline_task` from tasks.py (`StartRun`).  The
synthesized fallback key uses the clock in place of `int(time.time())` and
the fresh-run-id counter stands in for `uuid.uuid4()`. -/
def run_autonomous_addie_pipeline_task (work : WorkFn) (db : DB)
    (idempotency_key start_phase : String) (skip_completed : Bool) : DB × RunResult :=
  let p := db.project
  let nsp := if PIPELINE_PHASES.contains start_phase then start_phase else "ingest"
  let nk0 := pyStrip idempotency_key
  let nk := if nk0 == "" then "auto-" ++ p.id ++ "-" ++ toString db.now else nk0
  if p.current_idempotency_key == nk && p.current_run_id.isSome &&
      ACTIVE_RUN_STATES.contains p.run_state then
    (db, { status := "existing", run_id := p.current_run_id,
           run_state := some p.run_state, idempotency_key := some nk })
  else
    let runId := db.next_run_id
    let db := { db with next_run_id := db.next_run_id + 1 }
    let corr := "corr-" ++ toString runId
    let db := { db with project := { db.project with
      run_attempt := db.project.run_attempt + 1, current_phase := nsp,
      run_started_at := some db.now, run_completed_at := none,
      last_error_code := "", last_error_message := "" } }
    let db := set_project_run_state db "queued" (some runId) (some nk) (some corr) "" "" false
    run_pipeline_phases work runId skip_completed (PIPELINE_PHASES.drop (phase_index nsp)) db

/-- `resume_autonomous_addie_pipeline_task` from tasks.py (`ResumeRun`). -/
def resume_autonomous_addie_pipeline_task (work : WorkFn) (db : DB)
    (idempotency_key : String) : DB × RunResult :=
  if db.exceptions.any (fun e => e.status == "open") then
    (db, { status := "blocked", reason_code := some "OPEN_EXCEPTION_EXISTS" })
  else
    let sp := if PIPELINE_PHASES.contains db.project.current_phase then
        db.project.current_phase else "ingest"
    let rk0 := pyStrip idempotency_key
    let rk := if rk0 == "" then "resume-" ++ db.project.id ++ "-" ++ toString db.now else rk0
    run_autonomous_addie_pipeline_task work db rk sp true

/-- `cancel_autonomous_addie_pipeline_task` from tasks.py (`CancelRun`). -/
def cancel_autonomous_addie_pipeline_task (db : DB) (reason : String) : DB × RunResult :=
  if ["completed", "failed", "exception_required", "canceled", "idle"].contains
      db.project.run_state then
    (db, { status := "noop", run_state := some db.project.run_state })
  else
    let cp := if PIPELINE_PHASES.contains db.project.current_phase then
        db.project.current_phase else "ingest"
    let rdb := getOrCreatePhase db cp
    let r := { rdb.1 with status := "canceled", completed_at := some rdb.2.now }
    let db := savePhaseRecord rdb.2 r
    let db := set_project_run_state db "canceled" db.project.current_run_id none none
      "RUN_CANCELED" reason true
    (db, { status := "canceled", run_state := some "canceled", phase := some cp })

/-- The database state at the moment `retry_autonomous_stage_task` calls
the phase work function: fresh run id, `run_attempt` incremented, in-flight
run state persisted, phase record touched `in_progress`; also emits the
ghost `workInvoked` event. -/
def retryWorkCallDb (db : DB) (phase : String) : DB :=
  let runId := db.next_run_id
  let db := { db with next_run_id := db.next_run_id + 1 }
  let db := { db with project := { db.project with
    current_phase := phase, run_attempt := db.project.run_attempt + 1 } }
  let db1 := set_project_run_state db (RUN_STATE_BY_PHASE phase) (some runId) none none "" "" false
  let db1 := touch_phase db1 phase "in_progress"
  { db1 with trace := db1.trace ++ [Event.workInvoked phase] }

/-- `retry_autonomous_stage_task` from tasks.py (`RetryStage`). -/
def retry_autonomous_stage_task (work : WorkFn) (db : DB) (phase : String) : DB × RunResult :=
  if !PIPELINE_PHASES.contains phase then
    (db, { status := "invalid_phase", phase := some phase })
  else
    let runId := db.next_run_id
    let phaseStarted := db.now
    let db2 := retryWorkCallDb db phase
    match work phase db2 with
    | .missing =>
      let db3 := touch_phase db2 phase "failed"
      let db3 := set_project_run_state db3 "failed" (some runId) none none
        "PHASE_EXECUTION_MISSING" (phase ++ " execution returned missing") true
      let db3 := record_phase_metric db3 runId phase phaseStarted "failed" none
      (db3, { status := "failed", phase := some phase,
              error_code := some "PHASE_EXECUTION_MISSING" })
    | .completed pd docs dt =>
      let db3 := { db2 with
        now := db2.now + dt,
        project := { db2.project with phases_data := pd, knowledge_documents := docs } }
      let db3 := touch_phase db3 phase "completed"
      let g := evaluate_stage_gate db3.project phase
      let gate_result := g.1
      let confidence := g.2.1
      let risk := g.2.2.1
      let checks := g.2.2.2.1
      let reason_code := g.2.2.2.2
      let db4 := apply_gate_result db3 phase gate_result confidence risk checks
      let db4 := { db4 with trace := db4.trace ++ [Event.gateApplied phase gate_result] }
      let metric_status := if gate_result == "pass" then "success" else gate_result
      let db4 := record_phase_metric db4 runId phase phaseStarted metric_status (some confidence)
      if gate_result == "exception_required" then
        let exc := raise_project_exception phase
          (if reason_code == "" then "QUALITY_GATE_EXCEPTION" else reason_code)
          ("Stage retry routed " ++ phase ++ " to exception review.") confidence risk db4.now
        let excId := db4.exceptions.length
        let db5 := { db4 with exceptions := db4.exceptions ++ [exc] }
        let db5 := set_project_run_state db5 "exception_required" (some runId) none none
          exc.reason_code exc.reason_message true
        (db5, { status := "exception_required", phase := some phase, exception_id := some excId })
      else if gate_result == "fail" then
        let ec := if reason_code == "" then "QUALITY_GATE_FAILED" else reason_code
        let db5 := set_project_run_state db4 "failed" (some runId) none none ec
          ("Quality gate failed at " ++ phase ++ ".") true
        (db5, { status := "failed", phase := some phase, error_code := some ec })
      else
        let db5 := set_project_run_state db4 "completed" (some runId) none none "" "" true
        (db5, { status := "completed", phase := some phase, run_state := some "completed" })

/-- `resolve_exception` from views.py (lines 315–334): the status written
for a given `action`, with resolver, notes and resolution time restamped;
no precondition on the exception's current status. -/
def resolve_exception (exc : ELSProjectException) (action notes user : String)
    (now : Nat) : ELSProjectException :=
  let st := if action == "reject" then "rejected"
            else if action == "override" then "overridden"
            else "resolved"
  { exc with
    status := st, resolved_by := some user, resolution_notes := notes,
    resolved_at := some now }

/-- The view wrapper around `resolve_exception`: look the exception up by
id (`none` models the 404 branch) and save the updated row. -/
def resolve_exception_view (db : DB) (excId : Nat) (action notes user : String) : Option DB :=
  match db.exceptions[excId]? with
  | none => none
  | some exc =>
      some { db with
        exceptions := db.exceptions.set excId (resolve_exception exc action notes user db.now) }

/-- The database state a `StepOutcome` carries. -/
def stepDb (o : StepOutcome) : DB :=
  match o with
  | .halted d _ => d
  | .passed d => d

/-- The run result of a halting `StepOutcome`, if any. -/
def stepRes (o : StepOutcome) : Option RunResult :=
  match o with
  | .halted _ r => some r
  | .passed _ => none

/-- The number of failed checks a gate evaluation produces. -/
def failedCheckCount (p : ELSProject) (phase : String) : Nat :=
  ((gateChecks p phase).filter (fun c => !c.passed)).length

/-- Whether an event belongs to the pipeline-loop step of `p`: run-state
writes plus the work / gate / skip events of `p` itself. -/
def eventForPhase (p : String) (e : Event) : Bool :=
  match e with
  | .runStateSet _ => true
  | .workInvoked q => q == p
  | .gateApplied q _ => q == p
  | .phaseSkipped q => q == p

/-- The events a single pipeline-loop step of `p` may emit: events of `p`
only, and never the `completed` run state. -/
def stepEventOK (p : String) (e : Event) : Bool :=
  eventForPhase p e && !(e == Event.runStateSet "completed")

/-- Sequential gating over a phase list, read off a trace: each phase after
the first has its work invoked only if its immediate predecessor passed its
gate or was skipped as already completed in the same trace. -/
def chainOK : List String → List Event → Bool
  | a :: b :: rest, tr =>
      (!(tr.contains (Event.workInvoked b)) || tr.contains (Event.gateApplied a "pass")
        || tr.contains (Event.phaseSkipped a)) && chainOK (b :: rest) tr
  | _, _ => true

/-! ### Concrete fixtures for witnesses and counterexamples -/

/-- The `phases_data` each phase's work writes in a fully healthy run, as
far as the gates read it. -/
def happyPd (phase : String) (pd : PhasesData) : PhasesData :=
  if phase == "analyze" then { pd with analyze_objective_candidates := 1 }
  else if phase == "design" then { pd with design_has_assessment_strategy := true }
  else if phase == "implement" then { pd with implement_created_enrollments := 1 }
  else if phase == "evaluate" then { pd with evaluate_has_outcome_package := true }
  else pd

/-- A work oracle for which every phase succeeds: ingest indexes one
document and every later phase writes the output its gate checks. -/
def happyWork : WorkFn := fun phase db =>
  .completed (happyPd phase db.project.phases_data)
    (if phase == "ingest" then [{ status := "indexed" }] else db.project.knowledge_documents) 5

/-- Like `happyWork`, except the develop phase reports a content-quality
issue (`review_required = True`). -/
def devIssueWork : WorkFn := fun phase db =>
  if phase == "develop" then
    .completed { db.project.phases_data with develop_review_required := true }
      db.project.knowledge_documents 5
  else happyWork phase db

/-- A work oracle that leaves the project without any indexed document, so
the ingest gate fails. -/
def emptyIngestWork : WorkFn := fun _ db => .completed db.project.phases_data [] 0

/-- A work oracle reporting the project row as vanished. -/
def missingWork : WorkFn := fun _ _ => .missing

/-- A freshly created project in its default state. -/
def freshDb : DB := { project := {} }

/-- A project whose develop-phase output flags a quality issue. -/
def devFailProject : ELSProject := { phases_data := { develop_review_required := true } }

/-- A project with an active run under idempotency key `key-1`. -/
def activeDb : DB :=
  { project := { current_idempotency_key := "key-1", current_run_id := some 7,
                 run_state := "developing", run_attempt := 3 } }

/-- The develop-phase output with a quality issue flagged. -/
def pd0 : PhasesData := { develop_review_required := true }

/-- A constant work oracle whose develop output requires review. -/
def devWork0 : WorkFn := fun _ _ => .completed pd0 [] 7

/-- An open develop exception. -/
def openExc : ELSProjectException :=
  { phase := "develop", reason_code := "DEVELOP_QUALITY_REVIEW_REQUIRED",
    reason_message := "", confidence_score := mkRat 29 50, risk_score := mkRat 18 25,
    status := "open", priority := "high", due_at := 0 }

/-- A database blocked by `openExc`. -/
def dbOpen : DB := { project := {}, exceptions := [openExc] }

/-- A resolved develop exception, used to exercise `resolve_exception` on
an already-terminal row. -/
def exc0 : ELSProjectException :=
  { phase := "develop", reason_code := "DEVELOP_QUALITY_REVIEW_REQUIRED",
    reason_message := "", confidence_score := mkRat 29 50, risk_score := mkRat 18 25,
    status := "resolved", priority := "high", due_at := 0 }

/-- A database holding `exc0`. -/
def dbE : DB := { project := {}, exceptions := [exc0] }

end Genie

namespace Genie

/-! ## Theorems -/

/-- `round(x, 3)` is exact on any rational that is a multiple of 1/1000. -/
theorem round3_of_int (q : ℚ) (m : ℤ) (h : q * 1000 = (m : ℚ)) : round3 q = q := by
  unfold round3
  rw [h, round_intCast, ← h]
  ring

/-! Field-preservation lemmas: the phase-record helpers touch only
`phase_records`, and the run-state helper touches only `project` and the
ghost trace. -/

@[simp] theorem getOrCreatePhase_snd_project (db : DB) (phase : String) :
    (getOrCreatePhase db phase).2.project = db.project := by
  cases hf : db.phase_records.find? (fun r => r.phase == phase) <;> simp [getOrCreatePhase, hf]

@[simp] theorem getOrCreatePhase_snd_exceptions (db : DB) (phase : String) :
    (getOrCreatePhase db phase).2.exceptions = db.exceptions := by
  cases hf : db.phase_records.find? (fun r => r.phase == phase) <;> simp [getOrCreatePhase, hf]

@[simp] theorem getOrCreatePhase_snd_metrics (db : DB) (phase : String) :
    (getOrCreatePhase db phase).2.metrics = db.metrics := by
  cases hf : db.phase_records.find? (fun r => r.phase == phase) <;> simp [getOrCreatePhase, hf]

@[simp] theorem getOrCreatePhase_snd_now (db : DB) (phase : String) :
    (getOrCreatePhase db phase).2.now = db.now := by
  cases hf : db.phase_records.find? (fun r => r.phase == phase) <;> simp [getOrCreatePhase, hf]

@[simp] theorem getOrCreatePhase_snd_next_run_id (db : DB) (phase : String) :
    (getOrCreatePhase db phase).2.next_run_id = db.next_run_id := by
  cases hf : db.phase_records.find? (fun r => r.phase == phase) <;> simp [getOrCreatePhase, hf]

@[simp] theorem getOrCreatePhase_snd_trace (db : DB) (phase : String) :
    (getOrCreatePhase db phase).2.trace = db.trace := by
  cases hf : db.phase_records.find? (fun r => r.phase == phase) <;> simp [getOrCreatePhase, hf]

@[simp] theorem savePhaseRecord_project (db : DB) (r : ELSProjectPhase) :
    (savePhaseRecord db r).project = db.project := rfl

@[simp] theorem savePhaseRecord_exceptions (db : DB) (r : ELSProjectPhase) :
    (savePhaseRecord db r).exceptions = db.exceptions := rfl

@[simp] theorem savePhaseRecord_metrics (db : DB) (r : ELSProjectPhase) :
    (savePhaseRecord db r).metrics = db.metrics := rfl

@[simp] theorem savePhaseRecord_now (db : DB) (r : ELSProjectPhase) :
    (savePhaseRecord db r).now = db.now := rfl

@[simp] theorem savePhaseRecord_next_run_id (db : DB) (r : ELSProjectPhase) :
    (savePhaseRecord db r).next_run_id = db.next_run_id := rfl

@[simp] theorem savePhaseRecord_trace (db : DB) (r : ELSProjectPhase) :
    (savePhaseRecord db r).trace = db.trace := rfl

@[simp] theorem touch_phase_project (db : DB) (phase st : String) :
    (touch_phase db phase st).project = db.project := by
  simp [touch_phase]

@[simp] theorem touch_phase_exceptions (db : DB) (phase st : String) :
    (touch_phase db phase st).exceptions = db.exceptions := by
  simp [touch_phase]

@[simp] theorem touch_phase_metrics (db : DB) (phase st : String) :
    (touch_phase db phase st).metrics = db.metrics := by
  simp [touch_phase]

@[simp] theorem touch_phase_now (db : DB) (phase st : String) :
    (touch_phase db phase st).now = db.now := by
  simp [touch_phase]

@[simp] theorem touch_phase_next_run_id (db : DB) (phase st : String) :
    (touch_phase db phase st).next_run_id = db.next_run_id := by
  simp [touch_phase]

@[simp] theorem touch_phase_trace (db : DB) (phase st : String) :
    (touch_phase db phase st).trace = db.trace := by
  simp [touch_phase]

@[simp] theorem apply_gate_result_project (db : DB) (phase g : String) (c r : ℚ) (ck : List Check) :
    (apply_gate_result db phase g c r ck).project = db.project := by
  simp [apply_gate_result]

@[simp] theorem apply_gate_result_exceptions (db : DB) (phase g : String) (c r : ℚ) (ck : List Check) :
    (apply_gate_result db phase g c r ck).exceptions = db.exceptions := by
  simp [apply_gate_result]

@[simp] theorem apply_gate_result_metrics (db : DB) (phase g : String) (c r : ℚ) (ck : List Check) :
    (apply_gate_result db phase g c r ck).metrics = db.metrics := by
  simp [apply_gate_result]

@[simp] theorem apply_gate_result_now (db : DB) (phase g : String) (c r : ℚ) (ck : List Check) :
    (apply_gate_result db phase g c r ck).now = db.now := by
  simp [apply_gate_result]

@[simp] theorem apply_gate_result_next_run_id (db : DB) (phase g : String) (c r : ℚ) (ck : List Check) :
    (apply_gate_result db phase g c r ck).next_run_id = db.next_run_id := by
  simp [apply_gate_result]

@[simp] theorem apply_gate_result_trace (db : DB) (phase g : String) (c r : ℚ) (ck : List Check) :
    (apply_gate_result db phase g c r ck).trace = db.trace := by
  simp [apply_gate_result]

@[simp] theorem record_phase_metric_project (db : DB) (ri : Nat) (ph : String) (st : Nat)
    (s : String) (q : Option ℚ) : (record_phase_metric db ri ph st s q).project = db.project := rfl

@[simp] theorem record_phase_metric_exceptions (db : DB) (ri : Nat) (ph : String) (st : Nat)
    (s : String) (q : Option ℚ) :
    (record_phase_metric db ri ph st s q).exceptions = db.exceptions := rfl

@[simp] theorem record_phase_metric_phase_records (db : DB) (ri : Nat) (ph : String) (st : Nat)
    (s : String) (q : Option ℚ) :
    (record_phase_metric db ri ph st s q).phase_records = db.phase_records := rfl

@[simp] theorem record_phase_metric_now (db : DB) (ri : Nat) (ph : String) (st : Nat)
    (s : String) (q : Option ℚ) : (record_phase_metric db ri ph st s q).now = db.now := rfl

@[simp] theorem record_phase_metric_trace (db : DB) (ri : Nat) (ph : String) (st : Nat)
    (s : String) (q : Option ℚ) : (record_phase_metric db ri ph st s q).trace = db.trace := rfl

@[simp] theorem record_phase_metric_metrics (db : DB) (ri : Nat) (ph : String) (st : Nat)
    (s : String) (q : Option ℚ) :
    (record_phase_metric db ri ph st s q).metrics = db.metrics ++
      [{ run_id := ri, phase := ph, status := s, duration_ms := db.now - st,
         quality_score := q }] := rfl

@[simp] theorem set_project_run_state_phase_records (db : DB) (rs : String) (ri : Option Nat)
    (k c : Option String) (ec em : String) (cp : Bool) :
    (set_project_run_state db rs ri k c ec em cp).phase_records = db.phase_records := rfl

@[simp] theorem set_project_run_state_exceptions (db : DB) (rs : String) (ri : Option Nat)
    (k c : Option String) (ec em : String) (cp : Bool) :
    (set_project_run_state db rs ri k c ec em cp).exceptions = db.exceptions := rfl

@[simp] theorem set_project_run_state_metrics (db : DB) (rs : String) (ri : Option Nat)
    (k c : Option String) (ec em : String) (cp : Bool) :
    (set_project_run_state db rs ri k c ec em cp).metrics = db.metrics := rfl

@[simp] theorem set_project_run_state_now (db : DB) (rs : String) (ri : Option Nat)
    (k c : Option String) (ec em : String) (cp : Bool) :
    (set_project_run_state db rs ri k c ec em cp).now = db.now := rfl

@[simp] theorem set_project_run_state_next_run_id (db : DB) (rs : String) (ri : Option Nat)
    (k c : Option String) (ec em : String) (cp : Bool) :
    (set_project_run_state db rs ri k c ec em cp).next_run_id = db.next_run_id := rfl

@[simp] theorem set_project_run_state_trace (db : DB) (rs : String) (ri : Option Nat)
    (k c : Option String) (ec em : String) (cp : Bool) :
    (set_project_run_state db rs ri k c ec em cp).trace =
      db.trace ++ [Event.runStateSet rs] := rfl

@[simp] theorem set_project_run_state_run_state (db : DB) (rs : String) (ri : Option Nat)
    (k c : Option String) (ec em : String) (cp : Bool) :
    (set_project_run_state db rs ri k c ec em cp).project.run_state = rs := by
  simp only [set_project_run_state]
  cases ri <;> cases k <;> cases c <;> split_ifs <;> rfl

@[simp] theorem set_project_run_state_last_error_code (db : DB) (rs : String) (ri : Option Nat)
    (k c : Option String) (ec em : String) (cp : Bool) :
    (set_project_run_state db rs ri k c ec em cp).project.last_error_code = ec := by
  simp only [set_project_run_state]

@[simp] theorem set_project_run_state_last_error_message (db : DB) (rs : String) (ri : Option Nat)
    (k c : Option String) (ec em : String) (cp : Bool) :
    (set_project_run_state db rs ri k c ec em cp).project.last_error_message = em := by
  simp only [set_project_run_state]

@[simp] theorem set_project_run_state_current_run_id_some (db : DB) (rs : String) (r : Nat)
    (k c : Option String) (ec em : String) (cp : Bool) :
    (set_project_run_state db rs (some r) k c ec em cp).project.current_run_id = some r := by
  simp only [set_project_run_state]
  cases k <;> cases c <;> split_ifs <;> rfl

@[simp] theorem set_project_run_state_completed_at_true (db : DB) (rs : String) (ri : Option Nat)
    (k c : Option String) (ec em : String) :
    (set_project_run_state db rs ri k c ec em true).project.run_completed_at = some db.now := by
  simp only [set_project_run_state]
  cases ri <;> cases k <;> cases c <;> split_ifs <;> rfl

@[simp] theorem set_project_run_state_phases_data (db : DB) (rs : String) (ri : Option Nat)
    (k c : Option String) (ec em : String) (cp : Bool) :
    (set_project_run_state db rs ri k c ec em cp).project.phases_data =
      db.project.phases_data := by
  simp only [set_project_run_state]
  cases ri <;> cases k <;> cases c <;> split_ifs <;> rfl

@[simp] theorem set_project_run_state_knowledge_documents (db : DB) (rs : String)
    (ri : Option Nat) (k c : Option String) (ec em : String) (cp : Bool) :
    (set_project_run_state db rs ri k c ec em cp).project.knowledge_documents =
      db.project.knowledge_documents := by
  simp only [set_project_run_state]
  cases ri <;> cases k <;> cases c <;> split_ifs <;> rfl

@[simp] theorem set_project_run_state_current_phase (db : DB) (rs : String) (ri : Option Nat)
    (k c : Option String) (ec em : String) (cp : Bool) :
    (set_project_run_state db rs ri k c ec em cp).project.current_phase =
      db.project.current_phase := by
  simp only [set_project_run_state]
  cases ri <;> cases k <;> cases c <;> split_ifs <;> rfl

@[simp] theorem set_project_run_state_run_attempt (db : DB) (rs : String) (ri : Option Nat)
    (k c : Option String) (ec em : String) (cp : Bool) :
    (set_project_run_state db rs ri k c ec em cp).project.run_attempt =
      db.project.run_attempt := by
  simp only [set_project_run_state]
  cases ri <;> cases k <;> cases c <;> split_ifs <;> rfl

@[simp] theorem preWorkDb_phase_records (runId : Nat) (db : DB) (phase : String) :
    (preWorkDb runId db phase).phase_records = db.phase_records := by
  simp [preWorkDb]

@[simp] theorem preWorkDb_exceptions (runId : Nat) (db : DB) (phase : String) :
    (preWorkDb runId db phase).exceptions = db.exceptions := by
  simp [preWorkDb]

@[simp] theorem preWorkDb_metrics (runId : Nat) (db : DB) (phase : String) :
    (preWorkDb runId db phase).metrics = db.metrics := by
  simp [preWorkDb]

@[simp] theorem preWorkDb_now (runId : Nat) (db : DB) (phase : String) :
    (preWorkDb runId db phase).now = db.now := by
  simp [preWorkDb]

@[simp] theorem preWorkDb_next_run_id (runId : Nat) (db : DB) (phase : String) :
    (preWorkDb runId db phase).next_run_id = db.next_run_id := by
  simp [preWorkDb]

@[simp] theorem preWorkDb_trace (runId : Nat) (db : DB) (phase : String) :
    (preWorkDb runId db phase).trace =
      db.trace ++ [Event.runStateSet (RUN_STATE_BY_PHASE phase)] := by
  simp [preWorkDb]

@[simp] theorem preWorkDb_phases_data (runId : Nat) (db : DB) (phase : String) :
    (preWorkDb runId db phase).project.phases_data = db.project.phases_data := by
  simp [preWorkDb]

@[simp] theorem preWorkDb_knowledge_documents (runId : Nat) (db : DB) (phase : String) :
    (preWorkDb runId db phase).project.knowledge_documents =
      db.project.knowledge_documents := by
  simp [preWorkDb]

@[simp] theorem preWorkDb_run_state (runId : Nat) (db : DB) (phase : String) :
    (preWorkDb runId db phase).project.run_state = RUN_STATE_BY_PHASE phase := by
  simp [preWorkDb]

@[simp] theorem preWorkDb_run_attempt (runId : Nat) (db : DB) (phase : String) :
    (preWorkDb runId db phase).project.run_attempt = db.project.run_attempt := by
  simp [preWorkDb]

@[simp] theorem workCallDb_project (runId : Nat) (db : DB) (phase : String) :
    (workCallDb runId db phase).project = (preWorkDb runId db phase).project := by
  simp [workCallDb]

@[simp] theorem workCallDb_exceptions (runId : Nat) (db : DB) (phase : String) :
    (workCallDb runId db phase).exceptions = db.exceptions := by
  simp [workCallDb]

@[simp] theorem workCallDb_metrics (runId : Nat) (db : DB) (phase : String) :
    (workCallDb runId db phase).metrics = db.metrics := by
  simp [workCallDb]

@[simp] theorem workCallDb_now (runId : Nat) (db : DB) (phase : String) :
    (workCallDb runId db phase).now = db.now := by
  simp [workCallDb]

@[simp] theorem workCallDb_next_run_id (runId : Nat) (db : DB) (phase : String) :
    (workCallDb runId db phase).next_run_id = db.next_run_id := by
  simp [workCallDb]

@[simp] theorem workCallDb_trace (runId : Nat) (db : DB) (phase : String) :
    (workCallDb runId db phase).trace =
      db.trace ++ [Event.runStateSet (RUN_STATE_BY_PHASE phase), Event.workInvoked phase] := by
  simp [workCallDb]

/-- C10: `ResolveException` imposes no precondition on the exception's
current status and accepts any action string: `reject` sets `rejected`,
`override` sets `overridden`, and every other value sets `resolved`; an
already-terminal exception is overwritten to the new terminal status with
resolver, notes and resolution time restamped, and the view applies this
to any existing exception of the project. -/
theorem resolve_exception_unconditional (exc : ELSProjectException)
    (action notes user : String) (now : Nat) :
    (resolve_exception exc action notes user now).status =
      (if action = "reject" then "rejected"
       else if action = "override" then "overridden" else "resolved") ∧
    (resolve_exception exc action notes user now).resolved_by = some user ∧
    (resolve_exception exc action notes user now).resolution_notes = notes ∧
    (resolve_exception exc action notes user now).resolved_at = some now ∧
    (∀ db excId e, db.exceptions[excId]? = some e →
      resolve_exception_view db excId action notes user =
        some { db with exceptions :=
          db.exceptions.set excId (resolve_exception e action notes user db.now) }) := by
  refine ⟨?_, rfl, rfl, rfl, ?_⟩
  · by_cases h1 : action = "reject"
    · simp [resolve_exception, h1]
    · by_cases h2 : action = "override"
      · simp [resolve_exception, h1, h2]
      · simp [resolve_exception, h1, h2]
  · intro db excId e he
    simp [resolve_exception_view, he]

/-- Witness for C10: overriding an already-resolved exception rewrites it
to `overridden` with restamped resolution fields. -/
theorem resolve_exception_unconditional_witness :
    (resolve_exception exc0 "override" "checked" "reviewer" 5).status = "overridden" ∧
    (resolve_exception exc0 "override" "checked" "reviewer" 5).resolved_at = some 5 ∧
    resolve_exception_view dbE 0 "override" "checked" "reviewer" =
      some { dbE with exceptions :=
        dbE.exceptions.set 0 (resolve_exception exc0 "override" "checked" "reviewer" dbE.now) } := by
  have h := resolve_exception_unconditional exc0 "override" "checked" "reviewer" 5
  refine ⟨?_, h.2.2.2.1, h.2.2.2.2 dbE 0 exc0 (by decide)⟩
  rw [h.1]
  decide

/-! Gate evaluation lemmas. -/

theorem gate_confidence_bridge (p : ELSProject) (phase : String) :
    gateConfidence p phase = (default_gate phase (gateChecks p phase)).1 := rfl

theorem gate_risk_bridge (p : ELSProject) (phase : String) :
    gateRisk p phase = (default_gate phase (gateChecks p phase)).2 := rfl

theorem default_gate_single_pass (phase nm : String) :
    default_gate phase [{ name := nm, passed := true }] = (1, 0) := by
  simp only [default_gate, round3]
  norm_num [max_def, min_def]

theorem default_gate_single_fail_dev (nm : String) :
    default_gate "develop" [{ name := nm, passed := false }] = (0.58, 0.72) := by
  simp only [default_gate, round3]
  norm_num [max_def, min_def]

theorem default_gate_single_fail (phase nm : String) (h : phase ≠ "develop") :
    default_gate phase [{ name := nm, passed := false }] = (0.8, 0.15) := by
  simp only [default_gate, round3]
  norm_num [max_def, min_def, h]

/-- Every pipeline-phase gate evaluation produces exactly one check. -/
theorem gateChecks_singleton (p : ELSProject) (phase : String) (h : phase ∈ PIPELINE_PHASES) :
    ∃ nm b, gateChecks p phase = [{ name := nm, passed := b }] := by
  fin_cases h <;> exact ⟨_, _, rfl⟩

/-- The develop gate on a project whose develop output requires review. -/
theorem evaluate_stage_gate_develop_fail (p : ELSProject)
    (h : p.phases_data.develop_review_required = true) :
    evaluate_stage_gate p "develop" =
      ("exception_required", 0.58, 0.72, [{ name := "quality_review_required", passed := false }],
        "DEVELOP_QUALITY_REVIEW_REQUIRED") := by
  simp [evaluate_stage_gate, h, default_gate_single_fail_dev]

/-- Raising the develop gate exception: risk 0.72 falls in the `high`
priority band. -/
theorem raise_project_exception_dev (msg : String) (now : Nat) :
    raise_project_exception "develop" "DEVELOP_QUALITY_REVIEW_REQUIRED" msg 0.58 0.72 now =
      { phase := "develop", reason_code := "DEVELOP_QUALITY_REVIEW_REQUIRED",
        reason_message := msg, confidence_score := 0.58, risk_score := 0.72,
        status := "open", priority := "high", due_at := now + twoDaysMs } := by
  simp [raise_project_exception]
  norm_num

/-- C6 counterexample: for the develop phase with one failed check the code
computes risk 0.72, not `min 1 (0.15 × 1) = 0.15`, so the claimed risk
formula does not hold together with the claimed develop-phase lower bound. -/
theorem quality_gate_scoring_counterexample :
    (failedCheckCount devFailProject "develop" : ℚ) = 1 ∧
    gateRisk devFailProject "develop" = 0.72 ∧
    gateRisk devFailProject "develop" ≠
      min 1 (0.15 * (failedCheckCount devFailProject "develop" : ℚ)) := by
  have h1 : failedCheckCount devFailProject "develop" = 1 := by decide
  have h2 : gateRisk devFailProject "develop" =
      (default_gate "develop" [{ name := "quality_review_required", passed := false }]).2 := rfl
  rw [default_gate_single_fail_dev] at h2
  refine ⟨by rw [h1]; norm_num, h2, ?_⟩
  rw [h2, h1]
  norm_num [min_def]

/-- C6 (amended): for every gate evaluation of a pipeline phase with failed
check count n, confidence is `max(0.05, 1 − 0.2 n)` and risk is
`min(1, 0.15 n)` — except that for the develop phase with n ≥ 1 the code
caps confidence at 0.58 and raises risk to at least 0.72, so that there
confidence is `min(max(0.05, 1 − 0.2 n), 0.58)` and risk is
`max(min(1, 0.15 n), 0.72)`; in particular risk ≥ 0.72 and
confidence ≤ 0.58 for develop failures. -/
theorem quality_gate_scoring (p : ELSProject) (phase : String) (h : phase ∈ PIPELINE_PHASES) :
    (¬(phase = "develop" ∧ 1 ≤ failedCheckCount p phase) →
      gateConfidence p phase = max 0.05 (1 - 0.2 * (failedCheckCount p phase : ℚ)) ∧
      gateRisk p phase = min 1 (0.15 * (failedCheckCount p phase : ℚ))) ∧
    ((phase = "develop" ∧ 1 ≤ failedCheckCount p phase) →
      gateConfidence p phase = min (max 0.05 (1 - 0.2 * (failedCheckCount p phase : ℚ))) 0.58 ∧
      gateRisk p phase = max (min 1 (0.15 * (failedCheckCount p phase : ℚ))) 0.72 ∧
      0.72 ≤ gateRisk p phase ∧ gateConfidence p phase ≤ 0.58) := by
  obtain ⟨nm, b, hck⟩ := gateChecks_singleton p phase h
  have hconf := gate_confidence_bridge p phase
  have hrisk := gate_risk_bridge p phase
  rw [hck] at hconf hrisk
  have hn : failedCheckCount p phase = if b then 0 else 1 := by
    rw [failedCheckCount, hck]
    cases b <;> simp
  cases b with
  | true =>
    rw [default_gate_single_pass] at hconf hrisk
    norm_num at hn
    constructor
    · intro hcon
      rw [hconf, hrisk, hn]
      norm_num [max_def, min_def]
    · intro hcon
      rw [hn] at hcon
      exact absurd hcon.2 (by norm_num)
  | false =>
    norm_num at hn
    by_cases hd : phase = "develop"
    · subst hd
      rw [default_gate_single_fail_dev] at hconf hrisk
      constructor
      · intro hcon
        exact absurd ⟨rfl, by simp [hn]⟩ hcon
      · intro hcon
        rw [hconf, hrisk, hn]
        norm_num [max_def, min_def]
    · rw [default_gate_single_fail phase nm hd] at hconf hrisk
      constructor
      · intro hcon
        rw [hconf, hrisk, hn]
        norm_num [max_def, min_def]
      · intro hcon
        exact absurd hcon.1 hd

/-- Witness for C6 (amended), at the develop phase with one failed check. -/
theorem quality_gate_scoring_witness :
    "develop" ∈ PIPELINE_PHASES ∧
    1 ≤ failedCheckCount devFailProject "develop" ∧
    (gateConfidence devFailProject "develop" =
        min (max 0.05 (1 - 0.2 * (failedCheckCount devFailProject "develop" : ℚ))) 0.58 ∧
      gateRisk devFailProject "develop" =
        max (min 1 (0.15 * (failedCheckCount devFailProject "develop" : ℚ))) 0.72 ∧
      0.72 ≤ gateRisk devFailProject "develop" ∧
      gateConfidence devFailProject "develop" ≤ 0.58) :=
  ⟨by decide, by decide,
    (quality_gate_scoring devFailProject "develop" (by decide)).2 ⟨rfl, by decide⟩⟩

@[simp] theorem retryWorkCallDb_exceptions (db : DB) (phase : String) :
    (retryWorkCallDb db phase).exceptions = db.exceptions := by
  simp [retryWorkCallDb]

@[simp] theorem retryWorkCallDb_metrics (db : DB) (phase : String) :
    (retryWorkCallDb db phase).metrics = db.metrics := by
  simp [retryWorkCallDb]

@[simp] theorem retryWorkCallDb_now (db : DB) (phase : String) :
    (retryWorkCallDb db phase).now = db.now := by
  simp [retryWorkCallDb]

@[simp] theorem retryWorkCallDb_next_run_id (db : DB) (phase : String) :
    (retryWorkCallDb db phase).next_run_id = db.next_run_id + 1 := by
  simp [retryWorkCallDb]

@[simp] theorem retryWorkCallDb_phases_data (db : DB) (phase : String) :
    (retryWorkCallDb db phase).project.phases_data = db.project.phases_data := by
  simp [retryWorkCallDb]

@[simp] theorem retryWorkCallDb_run_attempt (db : DB) (phase : String) :
    (retryWorkCallDb db phase).project.run_attempt = db.project.run_attempt + 1 := by
  simp [retryWorkCallDb]

@[simp] theorem retryWorkCallDb_trace (db : DB) (phase : String) :
    (retryWorkCallDb db phase).trace =
      db.trace ++ [Event.runStateSet (RUN_STATE_BY_PHASE phase), Event.workInvoked phase] := by
  simp [retryWorkCallDb]

/-- What one pipeline-loop step does when the develop work completes with a
flagged quality issue: the gate routes to exception review, exactly one
exception row is appended (risk 0.72, confidence 0.58, priority high,
status open, due in two days), the run state becomes `exception_required`,
and the step's metric carries status `exception_required`. -/
theorem runPhaseStep_develop_exception (work : WorkFn) (runId : Nat) (skip : Bool) (db : DB)
    (pd : PhasesData) (docs : List KnowledgeDocument) (dt : Nat)
    (hwork : work "develop" (workCallDb runId db "develop") = .completed pd docs dt)
    (hrev : pd.develop_review_required = true)
    (hskip : skipsPhase skip db "develop" = false) :
    stepRes (runPhaseStep work runId skip db "develop") =
      some { status := "exception_required", run_id := some runId, phase := some "develop",
             exception_id := some db.exceptions.length,
             reason_code := some "DEVELOP_QUALITY_REVIEW_REQUIRED" } ∧
    (stepDb (runPhaseStep work runId skip db "develop")).exceptions =
      db.exceptions ++
        [{ phase := "develop", reason_code := "DEVELOP_QUALITY_REVIEW_REQUIRED",
           reason_message := "Quality gate routed develop to exception review.",
           confidence_score := 0.58, risk_score := 0.72,
           status := "open", priority := "high", due_at := db.now + dt + twoDaysMs }] ∧
    (stepDb (runPhaseStep work runId skip db "develop")).project.run_state =
      "exception_required" ∧
    (stepDb (runPhaseStep work runId skip db "develop")).metrics =
      db.metrics ++
        [{ run_id := runId, phase := "develop", status := "exception_required",
           duration_ms := dt, quality_score := some 0.58 }] := by
  simp only [runPhaseStep, hskip, Bool.false_eq_true, if_false, hwork]
  simp [stepRes, stepDb, evaluate_stage_gate_develop_fail, hrev, raise_project_exception_dev]

/-- The stage-retry analogue of `runPhaseStep_develop_exception`. -/
theorem retry_develop_exception (work : WorkFn) (db : DB)
    (pd : PhasesData) (docs : List KnowledgeDocument) (dt : Nat)
    (hwork : work "develop" (retryWorkCallDb db "develop") = .completed pd docs dt)
    (hrev : pd.develop_review_required = true) :
    (retry_autonomous_stage_task work db "develop").2 =
      { status := "exception_required", phase := some "develop",
        exception_id := some db.exceptions.length } ∧
    (retry_autonomous_stage_task work db "develop").1.exceptions =
      db.exceptions ++
        [{ phase := "develop", reason_code := "DEVELOP_QUALITY_REVIEW_REQUIRED",
           reason_message := "Stage retry routed develop to exception review.",
           confidence_score := 0.58, risk_score := 0.72,
           status := "open", priority := "high", due_at := db.now + dt + twoDaysMs }] ∧
    (retry_autonomous_stage_task work db "develop").1.project.run_state =
      "exception_required" := by
  simp only [retry_autonomous_stage_task, show (!PIPELINE_PHASES.contains "develop") = false from rfl,
    Bool.false_eq_true, if_false, hwork]
  simp [evaluate_stage_gate_develop_fail, hrev, raise_project_exception_dev]

/-- The gate never returns `exception_required` for a phase other than
develop. -/
theorem gateVerdict_not_exception (p : ELSProject) (phase : String) (h : phase ≠ "develop") :
    gateVerdict p phase ≠ "exception_required" := by
  have hb : (phase == "develop") = false := by simpa using h
  simp only [gateVerdict, evaluate_stage_gate, hb]
  repeat' split
  all_goals simp_all

/-- A pipeline-loop step on a phase other than develop never creates an
exception. -/
theorem runPhaseStep_exceptions_of_ne_dev (work : WorkFn) (runId : Nat) (skip : Bool)
    (db : DB) (phase : String) (h : phase ≠ "develop") :
    (stepDb (runPhaseStep work runId skip db phase)).exceptions = db.exceptions := by
  simp only [runPhaseStep]
  split
  · simp [stepDb]
  · cases hwork : work phase (workCallDb runId db phase) with
    | missing => simp [stepDb]
    | completed pd docs dt =>
      have hne := gateVerdict_not_exception
        (touch_phase { workCallDb runId db phase with
            now := (workCallDb runId db phase).now + dt,
            project := { (workCallDb runId db phase).project with
              phases_data := pd, knowledge_documents := docs } } phase "completed").project
        phase h
      simp only [gateVerdict] at hne
      simp only []
      split
      · next hx =>
        exfalso
        apply hne
        revert hx
        simp
      · split <;> simp [stepDb]

/-- C9: the develop gate always produces exactly the single
`quality_review_required` check, so every exception the coordinator or the
stage retry raises from the develop gate has risk exactly 0.72, confidence
exactly 0.58, priority exactly `high`, status `open`, and a due date two
days after the raise time. -/
theorem develop_exception_profile :
    (∀ p : ELSProject, gateChecks p "develop" =
      [{ name := "quality_review_required",
         passed := !p.phases_data.develop_review_required }]) ∧
    (∀ (work : WorkFn) (runId : Nat) (skip : Bool) (db : DB) (pd : PhasesData)
        (docs : List KnowledgeDocument) (dt : Nat),
      work "develop" (workCallDb runId db "develop") = .completed pd docs dt →
      pd.develop_review_required = true →
      skipsPhase skip db "develop" = false →
      (stepDb (runPhaseStep work runId skip db "develop")).exceptions =
        db.exceptions ++
          [{ phase := "develop", reason_code := "DEVELOP_QUALITY_REVIEW_REQUIRED",
             reason_message := "Quality gate routed develop to exception review.",
             confidence_score := 0.58, risk_score := 0.72,
             status := "open", priority := "high", due_at := db.now + dt + twoDaysMs }]) ∧
    (∀ (work : WorkFn) (db : DB) (pd : PhasesData)
        (docs : List KnowledgeDocument) (dt : Nat),
      work "develop" (retryWorkCallDb db "develop") = .completed pd docs dt →
      pd.develop_review_required = true →
      (retry_autonomous_stage_task work db "develop").1.exceptions =
        db.exceptions ++
          [{ phase := "develop", reason_code := "DEVELOP_QUALITY_REVIEW_REQUIRED",
             reason_message := "Stage retry routed develop to exception review.",
             confidence_score := 0.58, risk_score := 0.72,
             status := "open", priority := "high", due_at := db.now + dt + twoDaysMs }]) := by
  refine ⟨fun p => by simp [gateChecks, evaluate_stage_gate], ?_, ?_⟩
  · intro work runId skip db pd docs dt hwork hrev hskip
    exact (runPhaseStep_develop_exception work runId skip db pd docs dt hwork hrev hskip).2.1
  · intro work db pd docs dt hwork hrev
    exact (retry_develop_exception work db pd docs dt hwork hrev).2.1

/-- Witness for C9: a concrete develop step with a flagged quality issue. -/
theorem develop_exception_profile_witness :
    devWork0 "develop" (workCallDb 0 freshDb "develop") = .completed pd0 [] 7 ∧
    pd0.develop_review_required = true ∧
    skipsPhase false freshDb "develop" = false ∧
    (stepDb (runPhaseStep devWork0 0 false freshDb "develop")).exceptions =
      freshDb.exceptions ++
        [{ phase := "develop", reason_code := "DEVELOP_QUALITY_REVIEW_REQUIRED",
           reason_message := "Quality gate routed develop to exception review.",
           confidence_score := 0.58, risk_score := 0.72,
           status := "open", priority := "high",
           due_at := freshDb.now + 7 + twoDaysMs }] :=
  ⟨rfl, rfl, rfl,
    develop_exception_profile.2.1 devWork0 0 false freshDb pd0 [] 7 rfl rfl rfl⟩

/-- C2: a develop-phase output with at least one quality issue always routes
to `exception_required` (never `fail`) and creates one exception with
status `open` and priority `high` (hence high-or-critical); for every other
pipeline phase a failed check yields verdict `fail` and no exception is
ever created. -/
theorem develop_phase_routing :
    (∀ p : ELSProject, p.phases_data.develop_review_required = true →
      gateVerdict p "develop" = "exception_required" ∧ gateVerdict p "develop" ≠ "fail") ∧
    (∀ (work : WorkFn) (runId : Nat) (skip : Bool) (db : DB) (pd : PhasesData)
        (docs : List KnowledgeDocument) (dt : Nat),
      work "develop" (workCallDb runId db "develop") = .completed pd docs dt →
      pd.develop_review_required = true →
      skipsPhase skip db "develop" = false →
      (stepDb (runPhaseStep work runId skip db "develop")).exceptions.map
          (fun e => (e.status, e.priority)) =
        db.exceptions.map (fun e => (e.status, e.priority)) ++ [("open", "high")] ∧
      stepRes (runPhaseStep work runId skip db "develop") =
        some { status := "exception_required", run_id := some runId, phase := some "develop",
               exception_id := some db.exceptions.length,
               reason_code := some "DEVELOP_QUALITY_REVIEW_REQUIRED" }) ∧
    (∀ (p : ELSProject) (phase : String), phase ≠ "develop" →
      (gateChecks p phase).any (fun c => !c.passed) = true →
      gateVerdict p phase = "fail") ∧
    (∀ (work : WorkFn) (runId : Nat) (skip : Bool) (db : DB) (phase : String),
      phase ≠ "develop" →
      (stepDb (runPhaseStep work runId skip db phase)).exceptions = db.exceptions) := by
  refine ⟨?_, ?_, ?_, ?_⟩
  · intro p h
    rw [gateVerdict, evaluate_stage_gate_develop_fail p h]
    exact ⟨rfl, by simp⟩
  · intro work runId skip db pd docs dt hwork hrev hskip
    have h := runPhaseStep_develop_exception work runId skip db pd docs dt hwork hrev hskip
    refine ⟨?_, h.1⟩
    rw [h.2.1]
    simp
  · intro p phase hphase hany
    have hb : (phase == "develop") = false := by simpa using hphase
    have hv : gateVerdict p phase =
        (if ((gateChecks p phase).any fun c => !c.passed) = true then
          (if (phase == "develop") = true then "exception_required" else "fail")
        else "pass") := rfl
    rw [hv, hany, hb]
    simp
  · intro work runId skip db phase h
    exact runPhaseStep_exceptions_of_ne_dev work runId skip db phase h

/-- Witness for C2: the concrete develop step of
`develop_exception_profile_witness` plus a failing ingest gate. -/
theorem develop_phase_routing_witness :
    devFailProject.phases_data.develop_review_required = true ∧
    gateVerdict devFailProject "develop" = "exception_required" ∧
    devWork0 "develop" (workCallDb 0 freshDb "develop") = .completed pd0 [] 7 ∧
    (stepDb (runPhaseStep devWork0 0 false freshDb "develop")).exceptions.map
        (fun e => (e.status, e.priority)) =
      freshDb.exceptions.map (fun e => (e.status, e.priority)) ++ [("open", "high")] ∧
    ("ingest" : String) ≠ "develop" ∧
    (gateChecks { knowledge_documents := [] } "ingest").any (fun c => !c.passed) = true ∧
    gateVerdict { knowledge_documents := [] } "ingest" = "fail" :=
  ⟨rfl, (develop_phase_routing.1 devFailProject rfl).1, rfl,
    (develop_phase_routing.2.1 devWork0 0 false freshDb pd0 [] 7 rfl rfl rfl).1,
    by decide, by decide,
    develop_phase_routing.2.2.1 { knowledge_documents := [] } "ingest" (by decide) (by decide)⟩


/-! Phase-record lookup lemmas. -/

theorem touchedRecord_phase (n : Nat) (r0 : ELSProjectPhase) (st : String) :
    (touchedRecord n r0 st).phase = r0.phase := by
  simp only [touchedRecord]
  split_ifs <;> rfl

theorem touchedRecord_status (n : Nat) (r0 : ELSProjectPhase) (st : String) :
    (touchedRecord n r0 st).status = st := by
  simp only [touchedRecord]
  split_ifs <;> rfl

theorem find?_map_phase (l : List ELSProjectPhase) (r : ELSProjectPhase) :
    (l.map (fun x => if x.phase == r.phase then r else x)).find?
        (fun x => x.phase == r.phase) =
      (l.find? (fun x => x.phase == r.phase)).map (fun _ => r) := by
  induction l with
  | nil => rfl
  | cons a l ih =>
    by_cases ha : a.phase = r.phase
    · simp [List.find?_cons, ha]
    · have hb2 : (a.phase == r.phase) = false := by simpa using ha
      simp only [List.find?_map] at ih
      simp [List.find?_cons, ha, hb2, List.find?_map]
      simpa using ih

/-- `_touch_phase` leaves the touched row with exactly the written status. -/
@[simp] theorem phaseRecordStatus_touch (db : DB) (p st : String) :
    phaseRecordStatus (touch_phase db p st) p = some st := by
  unfold touch_phase phaseRecordStatus getPhaseRecord savePhaseRecord
  cases hf : db.phase_records.find? (fun x => x.phase == p) with
  | some r0 =>
    have hp2 : r0.phase = p := by
      have := List.find?_some hf
      simpa using this
    have hl := find?_map_phase db.phase_records (touchedRecord db.now r0 st)
    simp only [getOrCreatePhase, hf, touchedRecord_phase, hp2] at hl ⊢
    rw [hl]
    simp [touchedRecord_status]
  | none =>
    have hl := find?_map_phase (db.phase_records ++ [{ phase := p }])
      (touchedRecord db.now { phase := p } st)
    simp only [getOrCreatePhase, hf, touchedRecord_phase] at hl ⊢
    rw [hl]
    rw [List.find?_append, hf]
    simp [touchedRecord_status]

@[simp] theorem phaseRecordStatus_record_metric (db : DB) (ri : Nat) (ph : String) (st : Nat)
    (s : String) (q : Option ℚ) (p : String) :
    phaseRecordStatus (record_phase_metric db ri ph st s q) p = phaseRecordStatus db p := rfl

@[simp] theorem phaseRecordStatus_set_run_state (db : DB) (rs : String) (ri : Option Nat)
    (k c : Option String) (ec em : String) (cp : Bool) (p : String) :
    phaseRecordStatus (set_project_run_state db rs ri k c ec em cp) p =
      phaseRecordStatus db p := rfl

/-- C8: if a phase work function reports the entity missing, the run halts
immediately: the phase record is marked failed, the run state becomes
`failed` with error code `PHASE_EXECUTION_MISSING` and `run_completed_at`
stamped, exactly one `failed` metric is recorded for that phase, the call
returns status `failed`, and — as the final trace shows — no later phase
is ever started, so no later work function or gate runs and nothing is
retried. -/
theorem phase_execution_missing_halts (work : WorkFn) (runId : Nat) (skip : Bool) (db : DB)
    (p : String) (rest : List String)
    (hwork : work p (workCallDb runId db p) = .missing)
    (hskip : skipsPhase skip db p = false) :
    (run_pipeline_phases work runId skip (p :: rest) db).2 =
      { status := "failed", run_id := some runId, phase := some p,
        error_code := some "PHASE_EXECUTION_MISSING" } ∧
    (run_pipeline_phases work runId skip (p :: rest) db).1.project.run_state = "failed" ∧
    (run_pipeline_phases work runId skip (p :: rest) db).1.project.last_error_code =
      "PHASE_EXECUTION_MISSING" ∧
    (run_pipeline_phases work runId skip (p :: rest) db).1.project.run_completed_at =
      some db.now ∧
    phaseRecordStatus (run_pipeline_phases work runId skip (p :: rest) db).1 p =
      some "failed" ∧
    (run_pipeline_phases work runId skip (p :: rest) db).1.metrics =
      db.metrics ++ [{ run_id := runId, phase := p, status := "failed", duration_ms := 0,
                       quality_score := none }] ∧
    (run_pipeline_phases work runId skip (p :: rest) db).1.exceptions = db.exceptions ∧
    (run_pipeline_phases work runId skip (p :: rest) db).1.trace =
      db.trace ++ [Event.runStateSet (RUN_STATE_BY_PHASE p), Event.workInvoked p,
                   Event.runStateSet "failed"] := by
  simp only [run_pipeline_phases, runPhaseStep, hskip, Bool.false_eq_true, if_false, hwork]
  simp

/-- Witness for C8: the ingest work function reports the project missing. -/
theorem phase_execution_missing_halts_witness :
    missingWork "ingest" (workCallDb 0 freshDb "ingest") = .missing ∧
    skipsPhase false freshDb "ingest" = false ∧
    (run_pipeline_phases missingWork 0 false
        ["ingest", "analyze", "design", "develop", "implement", "evaluate"] freshDb).2 =
      { status := "failed", run_id := some 0, phase := some "ingest",
        error_code := some "PHASE_EXECUTION_MISSING" } ∧
    (run_pipeline_phases missingWork 0 false
        ["ingest", "analyze", "design", "develop", "implement", "evaluate"] freshDb).1.trace =
      freshDb.trace ++ [Event.runStateSet "ingesting", Event.workInvoked "ingest",
                        Event.runStateSet "failed"] :=
  ⟨rfl, rfl,
    (phase_execution_missing_halts missingWork 0 false freshDb "ingest"
      ["analyze", "design", "develop", "implement", "evaluate"] rfl rfl).1,
    (phase_execution_missing_halts missingWork 0 false freshDb "ingest"
      ["analyze", "design", "develop", "implement", "evaluate"] rfl rfl).2.2.2.2.2.2.2⟩

/-- C1: when the stored idempotency key matches the supplied key, a run id
is set, and the run state is active, completed or exception-required,
`StartRun` returns the existing run identity with status `existing` and
leaves the entire database — project row, phase records, metrics,
exceptions, attempt counter — untouched; calling it twice with the same
key yields the same run id. -/
theorem start_run_idempotent (work : WorkFn) (db : DB) (key start_phase : String) (skip : Bool)
    (hkey : db.project.current_idempotency_key = pyStrip key)
    (hne : pyStrip key ≠ "")
    (hrid : db.project.current_run_id.isSome = true)
    (hstate : ACTIVE_RUN_STATES.contains db.project.run_state = true) :
    run_autonomous_addie_pipeline_task work db key start_phase skip =
      (db, { status := "existing", run_id := db.project.current_run_id,
             run_state := some db.project.run_state,
             idempotency_key := some (pyStrip key) }) ∧
    (run_autonomous_addie_pipeline_task work db key start_phase skip).1.project.run_attempt =
      db.project.run_attempt ∧
    (run_autonomous_addie_pipeline_task work
        (run_autonomous_addie_pipeline_task work db key start_phase skip).1
        key start_phase skip).2.run_id =
      (run_autonomous_addie_pipeline_task work db key start_phase skip).2.run_id := by
  have hnk : (pyStrip key == "") = false := by simpa using hne
  have hmem : db.project.run_state ∈ ACTIVE_RUN_STATES := by simpa using hstate
  have hmain : run_autonomous_addie_pipeline_task work db key start_phase skip =
      (db, { status := "existing", run_id := db.project.current_run_id,
             run_state := some db.project.run_state,
             idempotency_key := some (pyStrip key) }) := by
    simp only [run_autonomous_addie_pipeline_task, hnk, Bool.false_eq_true, if_false, hkey]
    simp [hrid, hstate, hmem, ← hkey]
  refine ⟨hmain, by simp [hmain], by simp [hmain]⟩

/-- Witness for C1: a second `StartRun` with the active key `key-1`. -/
theorem start_run_idempotent_witness :
    activeDb.project.current_idempotency_key = pyStrip "key-1" ∧
    pyStrip "key-1" ≠ "" ∧
    activeDb.project.current_run_id.isSome = true ∧
    ACTIVE_RUN_STATES.contains activeDb.project.run_state = true ∧
    run_autonomous_addie_pipeline_task happyWork activeDb "key-1" "ingest" false =
      (activeDb, { status := "existing", run_id := activeDb.project.current_run_id,
                   run_state := some activeDb.project.run_state,
                   idempotency_key := some (pyStrip "key-1") }) :=
  ⟨by decide, by decide, by decide, by decide,
    (start_run_idempotent happyWork activeDb "key-1" "ingest" false
      (by decide) (by decide) (by decide) (by decide)).1⟩

/-- C7: while any exception of the project is open, `ResumeRun` returns
`blocked` with reason `OPEN_EXCEPTION_EXISTS` and changes nothing: the
returned database is the input database, so no work function runs and no
project, phase-record, metric or exception state is written. -/
theorem resume_blocked_on_open_exception (work : WorkFn) (db : DB) (key : String)
    (h : ∃ e ∈ db.exceptions, e.status = "open") :
    resume_autonomous_addie_pipeline_task work db key =
      (db, { status := "blocked", reason_code := some "OPEN_EXCEPTION_EXISTS" }) := by
  obtain ⟨e, he, hst⟩ := h
  have hany : (db.exceptions.any fun e => e.status == "open") = true :=
    List.any_eq_true.2 ⟨e, he, by simp [hst]⟩
  simp [resume_autonomous_addie_pipeline_task, hany]

/-- Witness for C7: resuming a project with one open exception. -/
theorem resume_blocked_on_open_exception_witness :
    (∃ e ∈ dbOpen.exceptions, e.status = "open") ∧
    resume_autonomous_addie_pipeline_task happyWork dbOpen "key-2" =
      (dbOpen, { status := "blocked", reason_code := some "OPEN_EXCEPTION_EXISTS" }) :=
  ⟨⟨openExc, by decide, rfl⟩,
    resume_blocked_on_open_exception happyWork dbOpen "key-2" ⟨openExc, by decide, rfl⟩⟩

/-- C5 (code bug): on a gate verdict of `fail` the coordinator records the
metric with status `fail` — the raw gate verdict — which is outside the
status choices `success`/`failed`/`exception_required` declared on
`ELSProjectRunMetric` in models.py and differs from the `failed` the data
model promises.  Concretely, a run over a project with no indexed
documents fails the ingest gate and writes one metric whose status is
`fail`. -/
theorem run_metric_status_fail_bug :
    (run_autonomous_addie_pipeline_task emptyIngestWork freshDb "k1" "ingest" false).1.metrics.map
        (fun m => m.status) = ["fail"] ∧
    RUN_METRIC_STATUSES.contains "fail" = false ∧
    (run_autonomous_addie_pipeline_task emptyIngestWork freshDb "k1" "ingest" false).2.status =
      "failed" ∧
    gateVerdict { knowledge_documents := [] } "ingest" = "fail" := by
  refine ⟨by decide, by decide, by decide, by decide⟩


end Genie

namespace Genie

theorem RUN_STATE_BY_PHASE_ne_completed (p : String) :
    RUN_STATE_BY_PHASE p ≠ "completed" := by
  unfold RUN_STATE_BY_PHASE
  split_ifs <;> decide

theorem evaluate_verdict_cases (q : ELSProject) (phase : String) :
    (evaluate_stage_gate q phase).1 = "pass" ∨ (evaluate_stage_gate q phase).1 = "fail" ∨
      (evaluate_stage_gate q phase).1 = "exception_required" := by
  simp only [evaluate_stage_gate]
  repeat' split
  all_goals simp

theorem runPhaseStep_trace_shape (work : WorkFn) (runId : Nat) (skip : Bool) (db : DB)
    (p : String) :
    ∃ Δ, (stepDb (runPhaseStep work runId skip db p)).trace = db.trace ++ Δ ∧
      Δ.all (stepEventOK p) = true ∧
      (stepRes (runPhaseStep work runId skip db p) = none →
        (Δ.contains (Event.gateApplied p "pass") || Δ.contains (Event.phaseSkipped p)) = true) := by
  have hrs : (Event.runStateSet (RUN_STATE_BY_PHASE p) == Event.runStateSet "completed") = false := by
    simpa using RUN_STATE_BY_PHASE_ne_completed p
  unfold runPhaseStep
  split
  · refine ⟨[Event.runStateSet (RUN_STATE_BY_PHASE p), Event.phaseSkipped p],
      by simp [stepDb], ?_, by simp [stepDb]⟩
    simp [stepEventOK, eventForPhase, hrs]
  · cases hw : work p (workCallDb runId db p) with
    | missing =>
      simp only [hw]
      refine ⟨[Event.runStateSet (RUN_STATE_BY_PHASE p), Event.workInvoked p,
               Event.runStateSet "failed"],
        by simp [stepDb], ?_, by simp [stepRes]⟩
      simp [stepEventOK, eventForPhase, hrs]
    | completed pd docs dt =>
      simp only [hw]
      have hg := evaluate_verdict_cases
        (touch_phase { workCallDb runId db p with
            now := (workCallDb runId db p).now + dt,
            project := { (workCallDb runId db p).project with
              phases_data := pd, knowledge_documents := docs } } p "completed").project p
      split
      · next h1 =>
        refine ⟨[Event.runStateSet (RUN_STATE_BY_PHASE p), Event.workInvoked p,
                 Event.gateApplied p "exception_required",
                 Event.runStateSet "exception_required"],
          ?_, ?_, by simp [stepRes]⟩
        · simp [stepDb]
          simp_all
        · simp [stepEventOK, eventForPhase, hrs]
      · next h1 =>
        split
        · next h2 =>
          refine ⟨[Event.runStateSet (RUN_STATE_BY_PHASE p), Event.workInvoked p,
                   Event.gateApplied p "fail", Event.runStateSet "failed"],
            ?_, ?_, by simp [stepRes]⟩
          · simp [stepDb]
            simp_all
          · simp [stepEventOK, eventForPhase, hrs]
        · next h2 =>
          have hpass : (evaluate_stage_gate
              (touch_phase { workCallDb runId db p with
                  now := (workCallDb runId db p).now + dt,
                  project := { (workCallDb runId db p).project with
                    phases_data := pd, knowledge_documents := docs } } p "completed").project
              p).1 = "pass" := by
            rcases hg with hg | hg | hg
            · exact hg
            · exact absurd hg (by simpa using h2)
            · exact absurd hg (by simpa using h1)
          refine ⟨[Event.runStateSet (RUN_STATE_BY_PHASE p), Event.workInvoked p,
                   Event.gateApplied p "pass"],
            ?_, ?_, by simp⟩
          · simp [stepDb]
            simp_all
          · simp [stepEventOK, eventForPhase, hrs]

end Genie

namespace Genie

theorem contains_append (l1 l2 : List Event) (x : Event) :
    (l1 ++ l2).contains x = (l1.contains x || l2.contains x) := by
  by_cases h : x ∈ l1 ++ l2 <;> simp_all [List.mem_append]

theorem no_other_work (Δ : List Event) (a b : String)
    (hall : Δ.all (stepEventOK a) = true) (hne : b ≠ a) :
    Δ.contains (Event.workInvoked b) = false := by
  by_contra hc
  have hmem : Event.workInvoked b ∈ Δ := by
    simpa using Bool.of_not_eq_false hc
  have := List.all_eq_true.1 hall _ hmem
  simp [stepEventOK, eventForPhase] at this
  exact hne this

theorem no_completed_event (Δ : List Event) (a : String)
    (hall : Δ.all (stepEventOK a) = true) :
    Δ.contains (Event.runStateSet "completed") = false := by
  by_contra hc
  have hmem : Event.runStateSet "completed" ∈ Δ := by
    simpa using Bool.of_not_eq_false hc
  have := List.all_eq_true.1 hall _ hmem
  simp [stepEventOK, eventForPhase] at this

theorem chainOK_of_no_work (l : List String) (tr : List Event)
    (h : ∀ b ∈ l.tail, tr.contains (Event.workInvoked b) = false) :
    chainOK l tr = true := by
  induction l with
  | nil => rfl
  | cons a l ih =>
    cases l with
    | nil => rfl
    | cons b rest =>
      simp only [chainOK, Bool.and_eq_true]
      constructor
      · have hb := h b (by simp)
        simp only [Bool.or_eq_true]
        exact Or.inl (Or.inl (by simpa [List.contains_eq_any_beq] using hb))
      · exact ih fun x hx => h x (by simp at hx ⊢; tauto)

theorem run_pipeline_phases_trace_mono (work : WorkFn) (runId : Nat) (skip : Bool) :
    ∀ (l : List String) (db : DB),
      ∃ Δ, (run_pipeline_phases work runId skip l db).1.trace = db.trace ++ Δ := by
  intro l
  induction l with
  | nil =>
    intro db
    exact ⟨[Event.runStateSet "completed"], by simp [run_pipeline_phases]⟩
  | cons a l ih =>
    intro db
    obtain ⟨Δ, h1, h2, h3⟩ := runPhaseStep_trace_shape work runId skip db a
    cases ho : runPhaseStep work runId skip db a with
    | halted dbh res =>
      rw [ho] at h1
      exact ⟨Δ, by simp [run_pipeline_phases, ho]; simpa [stepDb] using h1⟩
    | passed dbp =>
      rw [ho] at h1
      obtain ⟨Δ2, hh⟩ := ih dbp
      refine ⟨Δ ++ Δ2, ?_⟩
      simp only [run_pipeline_phases, ho]
      rw [hh]
      simp [stepDb] at h1
      rw [h1, List.append_assoc]

end Genie

namespace Genie

theorem run_pipeline_phases_chainOK (work : WorkFn) (runId : Nat) (skip : Bool) :
    ∀ (l : List String) (db : DB), l.Nodup →
      (∀ x ∈ l, db.trace.contains (Event.workInvoked x) = false) →
      chainOK l (run_pipeline_phases work runId skip l db).1.trace = true := by
  intro l
  induction l with
  | nil => intro db _ _; rfl
  | cons a tail ih =>
    intro db hnd hno
    cases tail with
    | nil => rfl
    | cons b rest =>
      obtain ⟨Δ, h1, h2, h3⟩ := runPhaseStep_trace_shape work runId skip db a
      cases ho : runPhaseStep work runId skip db a with
      | halted dbh res =>
        rw [ho] at h1
        simp only [stepDb] at h1
        have hfin : (run_pipeline_phases work runId skip (a :: b :: rest) db).1.trace =
            db.trace ++ Δ := by
          simp [run_pipeline_phases, ho, h1]
        rw [hfin]
        apply chainOK_of_no_work
        intro x hx
        have hxl : x ∈ a :: b :: rest := by
          simp only [List.tail_cons] at hx
          simp [hx]
        have hxa : x ≠ a := by
          intro he
          subst he
          simp only [List.tail_cons] at hx
          exact (List.nodup_cons.1 hnd).1 hx
        rw [contains_append, hno x hxl, no_other_work Δ a x h2 hxa]
        rfl
      | passed dbp =>
        rw [ho] at h1 h3
        simp only [stepDb] at h1
        have h3 := h3 rfl
        have hloop : run_pipeline_phases work runId skip (a :: b :: rest) db =
            run_pipeline_phases work runId skip (b :: rest) dbp := by
          simp [run_pipeline_phases, ho]
        obtain ⟨Δ2, hmono⟩ := run_pipeline_phases_trace_mono work runId skip (b :: rest) dbp
        have hihyp : ∀ x ∈ b :: rest, dbp.trace.contains (Event.workInvoked x) = false := by
          intro x hx
          have hxa : x ≠ a := by
            intro he
            subst he
            exact absurd hx (List.nodup_cons.1 hnd).1
          have hxl : x ∈ a :: b :: rest := by simp [hx]
          rw [h1, contains_append, hno x hxl, no_other_work Δ a x h2 hxa]
          rfl
        have hch := ih dbp (List.nodup_cons.1 hnd).2 hihyp
        rw [hloop]
        simp only [chainOK, Bool.and_eq_true]
        refine ⟨?_, hch⟩
        rw [hmono, h1, List.append_assoc]
        simp only [Bool.or_eq_true]
        rcases (Bool.or_eq_true _ _).symm ▸ h3 with hp | hp
        · refine Or.inl (Or.inr ?_)
          rw [contains_append, contains_append, hp]
          simp
        · refine Or.inr ?_
          rw [contains_append, contains_append, hp]
          simp

end Genie

namespace Genie

theorem run_pipeline_phases_completed (work : WorkFn) (runId : Nat) (skip : Bool) :
    ∀ (l : List String) (db : DB),
      db.trace.contains (Event.runStateSet "completed") = false →
      (run_pipeline_phases work runId skip l db).1.trace.contains
          (Event.runStateSet "completed") = true →
      (run_pipeline_phases work runId skip l db).2.status = "completed" ∧
      (∀ p, l.getLast? = some p →
        ((run_pipeline_phases work runId skip l db).1.trace.contains (Event.gateApplied p "pass")
          || (run_pipeline_phases work runId skip l db).1.trace.contains
               (Event.phaseSkipped p)) = true) := by
  intro l
  induction l with
  | nil =>
    intro db hclean hcont
    exact ⟨rfl, by intro p hp; simp at hp⟩
  | cons a tail ih =>
    intro db hclean hcont
    obtain ⟨Δ, h1, h2, h3⟩ := runPhaseStep_trace_shape work runId skip db a
    cases ho : runPhaseStep work runId skip db a with
    | halted dbh res =>
      rw [ho] at h1
      simp only [stepDb] at h1
      exfalso
      have hfin : (run_pipeline_phases work runId skip (a :: tail) db).1.trace =
          db.trace ++ Δ := by
        simp [run_pipeline_phases, ho, h1]
      rw [hfin, contains_append, hclean, no_completed_event Δ a h2] at hcont
      simp at hcont
    | passed dbp =>
      rw [ho] at h1 h3
      simp only [stepDb] at h1
      have h3 := h3 rfl
      have hloop : run_pipeline_phases work runId skip (a :: tail) db =
          run_pipeline_phases work runId skip tail dbp := by
        simp [run_pipeline_phases, ho]
      rw [hloop] at hcont ⊢
      have hclean2 : dbp.trace.contains (Event.runStateSet "completed") = false := by
        rw [h1, contains_append, hclean, no_completed_event Δ a h2]
        rfl
      have hih := ih dbp hclean2 hcont
      refine ⟨hih.1, ?_⟩
      intro p hp
      cases tail with
      | nil =>
        simp at hp
        subst hp
        obtain ⟨Δ2, hmono⟩ := run_pipeline_phases_trace_mono work runId skip [] dbp
        rw [hmono, h1, List.append_assoc, contains_append, contains_append,
            contains_append, contains_append]
        rcases (Bool.or_eq_true _ _).symm ▸ h3 with hq | hq
        · rw [hq]
          simp
        · rw [hq]
          simp
      | cons b rest =>
        rw [List.getLast?_cons_cons] at hp
        exact hih.2 p hp

end Genie

namespace Genie

theorem phase_index_lt_six (s : String) : phase_index s < 6 := by
  unfold phase_index
  split
  · next h =>
    have hm : s ∈ PIPELINE_PHASES := by simpa using h
    have := List.indexOf_lt_length.2 hm
    simpa [PIPELINE_PHASES] using this
  · norm_num

theorem drop_getLast_evaluate (k : Nat) (hk : k < 6) :
    (PIPELINE_PHASES.drop k).getLast? = some "evaluate" := by
  revert hk
  revert k
  decide

theorem drop_nodup (k : Nat) (hk : k < 6) : (PIPELINE_PHASES.drop k).Nodup := by
  revert hk
  revert k
  decide

theorem phase_index_zero_of_not_contains (s : String)
    (h : PIPELINE_PHASES.contains s = false) : phase_index s = 0 := by
  unfold phase_index
  rw [h]
  simp

theorem start_run_chainOK (work : WorkFn) (db : DB) (key start_phase : String) (skip : Bool)
    (htr : db.trace = []) :
    chainOK (PIPELINE_PHASES.drop (phase_index start_phase))
      (run_autonomous_addie_pipeline_task work db key start_phase skip).1.trace = true := by
  have hing : phase_index "ingest" = 0 := by decide
  by_cases hsp : PIPELINE_PHASES.contains start_phase = true
  · simp only [run_autonomous_addie_pipeline_task, hsp, if_true]
    split <;> split
    all_goals
      first
      | (apply run_pipeline_phases_chainOK
         · exact drop_nodup _ (phase_index_lt_six _)
         · intro x hx
           simp [htr])
      | (apply chainOK_of_no_work
         intro b hb
         simp [htr])
  · have hsp2 : PIPELINE_PHASES.contains start_phase = false := by
      simpa using hsp
    rw [phase_index_zero_of_not_contains start_phase hsp2]
    simp only [run_autonomous_addie_pipeline_task, hsp2, Bool.false_eq_true, if_false, hing]
    split <;> split
    all_goals
      first
      | (apply run_pipeline_phases_chainOK
         · exact drop_nodup 0 (by norm_num)
         · intro x hx
           simp [htr])
      | (apply chainOK_of_no_work
         intro b hb
         simp [htr])

end Genie

namespace Genie

theorem start_run_completed_clause (work : WorkFn) (db : DB) (key start_phase : String)
    (skip : Bool) (htr : db.trace = [])
    (hcont : (run_autonomous_addie_pipeline_task work db key start_phase skip).1.trace.contains
      (Event.runStateSet "completed") = true) :
    (run_autonomous_addie_pipeline_task work db key start_phase skip).2.status = "completed" ∧
    ((run_autonomous_addie_pipeline_task work db key start_phase skip).1.trace.contains
        (Event.gateApplied "evaluate" "pass")
      || (run_autonomous_addie_pipeline_task work db key start_phase skip).1.trace.contains
           (Event.phaseSkipped "evaluate")) = true := by
  revert hcont
  simp only [run_autonomous_addie_pipeline_task]
  split <;> split
  · intro hcont
    rw [htr] at hcont
    simp at hcont
  · intro hcont
    have hcl := run_pipeline_phases_completed work db.next_run_id skip _ _
      (by simp [htr]) hcont
    refine ⟨hcl.1, ?_⟩
    exact hcl.2 "evaluate" (drop_getLast_evaluate _ (phase_index_lt_six _))
  · intro hcont
    rw [htr] at hcont
    simp at hcont
  · intro hcont
    have hcl := run_pipeline_phases_completed work db.next_run_id skip _ _
      (by simp [htr]) hcont
    refine ⟨hcl.1, ?_⟩
    exact hcl.2 "evaluate" (drop_getLast_evaluate _ (phase_index_lt_six _))

end Genie

namespace Genie

theorem retry_completed_clause (work : WorkFn) (db : DB) (phase : String)
    (htr : db.trace = [])
    (hcont : (retry_autonomous_stage_task work db phase).1.trace.contains
      (Event.runStateSet "completed") = true) :
    (retry_autonomous_stage_task work db phase).2.status = "completed" ∧
    (retry_autonomous_stage_task work db phase).1.trace.contains
      (Event.gateApplied phase "pass") = true := by
  revert hcont
  simp only [retry_autonomous_stage_task]
  split
  · intro hcont
    rw [htr] at hcont
    simp at hcont
  · cases hw : work phase (retryWorkCallDb db phase) with
    | missing =>
      simp only [hw]
      intro hcont
      simp [htr, RUN_STATE_BY_PHASE_ne_completed phase,
            Ne.symm (RUN_STATE_BY_PHASE_ne_completed phase)] at hcont
    | completed pd docs dt =>
      simp only [hw]
      have hg := evaluate_verdict_cases
        (touch_phase { retryWorkCallDb db phase with
            now := (retryWorkCallDb db phase).now + dt,
            project := { (retryWorkCallDb db phase).project with
              phases_data := pd, knowledge_documents := docs } } phase "completed").project phase
      split
      · next h1 =>
        intro hcont
        simp [htr, RUN_STATE_BY_PHASE_ne_completed phase,
            Ne.symm (RUN_STATE_BY_PHASE_ne_completed phase)] at hcont
      · next h1 =>
        split
        · next h2 =>
          intro hcont
          simp [htr, RUN_STATE_BY_PHASE_ne_completed phase,
            Ne.symm (RUN_STATE_BY_PHASE_ne_completed phase)] at hcont
        · next h2 =>
          intro hcont
          have hpass : (evaluate_stage_gate
              (touch_phase { retryWorkCallDb db phase with
                  now := (retryWorkCallDb db phase).now + dt,
                  project := { (retryWorkCallDb db phase).project with
                    phases_data := pd, knowledge_documents := docs } } phase "completed").project
              phase).1 = "pass" := by
            rcases hg with hg | hg | hg
            · exact hg
            · exact absurd hg (by simpa using h2)
            · exact absurd hg (by simpa using h1)
          refine ⟨rfl, ?_⟩
          simp [htr] at hpass ⊢
          first
          | exact hpass
          | exact hpass.symm

theorem cancel_completed_clause (db : DB) (reason : String) (htr : db.trace = []) :
    (cancel_autonomous_addie_pipeline_task db reason).1.trace.contains
      (Event.runStateSet "completed") = false := by
  simp only [cancel_autonomous_addie_pipeline_task]
  split
  · simp [htr]
  · simp [htr]

end Genie

namespace Genie

theorem resume_chainOK (work : WorkFn) (db : DB) (key : String) (htr : db.trace = []) :
    chainOK (PIPELINE_PHASES.drop (phase_index (if PIPELINE_PHASES.contains
        db.project.current_phase then db.project.current_phase else "ingest")))
      (resume_autonomous_addie_pipeline_task work db key).1.trace = true := by
  simp only [resume_autonomous_addie_pipeline_task]
  split <;> split
  all_goals
    first
    | exact start_run_chainOK work db _ _ true htr
    | (apply chainOK_of_no_work
       intro b hb
       simp [htr])

theorem resume_completed_clause (work : WorkFn) (db : DB) (key : String)
    (htr : db.trace = [])
    (hcont : (resume_autonomous_addie_pipeline_task work db key).1.trace.contains
      (Event.runStateSet "completed") = true) :
    (resume_autonomous_addie_pipeline_task work db key).2.status = "completed" ∧
    ((resume_autonomous_addie_pipeline_task work db key).1.trace.contains
        (Event.gateApplied "evaluate" "pass")
      || (resume_autonomous_addie_pipeline_task work db key).1.trace.contains
           (Event.phaseSkipped "evaluate")) = true := by
  revert hcont
  simp only [resume_autonomous_addie_pipeline_task]
  split
  · intro hcont
    rw [htr] at hcont
    simp at hcont
  · intro hcont
    exact start_run_completed_clause work db _ _ true htr hcont

end Genie

namespace Genie

/-- C3 (amended): sequential gating holds for the pipeline loop that
`StartRun` and `ResumeRun` execute — over the suffix of `PIPELINE_PHASES`
actually processed, a phase's work function is invoked only if the
immediately preceding phase's gate returned `pass` (or the phase was
skipped as already completed) in the same execution.  The original claim's
quantification over `RetryStage` is false (see the counterexample):
`RetryStage` invokes the requested phase's work function without
consulting the preceding phase's PhaseRecord, and a `StartRun` with an
explicit later `start_phase` likewise bypasses the gates of the phases
before it. -/
theorem sequential_gating (work : WorkFn) (db : DB)
    (key start_phase resume_key : String) (skip : Bool) (htr : db.trace = []) :
    chainOK (PIPELINE_PHASES.drop (phase_index start_phase))
      (run_autonomous_addie_pipeline_task work db key start_phase skip).1.trace = true ∧
    chainOK (PIPELINE_PHASES.drop (phase_index (if PIPELINE_PHASES.contains
        db.project.current_phase then db.project.current_phase else "ingest")))
      (resume_autonomous_addie_pipeline_task work db resume_key).1.trace = true :=
  ⟨start_run_chainOK work db key start_phase skip htr,
   resume_chainOK work db resume_key htr⟩

/-- C3 counterexample to the original claim: `RetryStage` on `develop`
invokes the develop work function although no PhaseRecord for the
preceding phase (`design`) exists at all — the project is fresh, no
`design` gate ever returned `pass`, and the final state still has no
passing `design` record. -/
theorem sequential_gating_counterexample :
    (retry_autonomous_stage_task happyWork freshDb "develop").1.trace.contains
      (Event.workInvoked "develop") = true ∧
    freshDb.phase_records = [] ∧
    (retry_autonomous_stage_task happyWork freshDb "develop").1.trace.contains
      (Event.gateApplied "design" "pass") = false ∧
    (retry_autonomous_stage_task happyWork freshDb "develop").1.phase_records.any
      (fun r => r.phase == "design" && r.gate_result == "pass") = false := by
  decide

/-- C3 witness: the amended theorem applied to a fresh project, starting
at `design` and resuming from the default phase. -/
theorem sequential_gating_witness :
    freshDb.trace = [] ∧
    (chainOK (PIPELINE_PHASES.drop (phase_index "design"))
      (run_autonomous_addie_pipeline_task happyWork freshDb "key-A" "design"
        false).1.trace = true ∧
    chainOK (PIPELINE_PHASES.drop (phase_index (if PIPELINE_PHASES.contains
        freshDb.project.current_phase then freshDb.project.current_phase else "ingest")))
      (resume_autonomous_addie_pipeline_task happyWork freshDb "key-B").1.trace = true) :=
  ⟨rfl, sequential_gating happyWork freshDb "key-A" "design" "key-B" false rfl⟩

end Genie

namespace Genie

/-- C4 (amended): a run-state write of `completed` happens only right
after a gate returns `pass` — for `StartRun` and `ResumeRun` it is the
final (`evaluate`) phase's `pass` (or its already-completed skip) and the
call returns status `completed`; `CancelRun` never writes `completed`.
The original claim's restriction to the evaluate phase is false for
`RetryStage` (see the counterexample): a stage retry writes `completed`
after the *retried* phase's own `pass`, whichever phase that is. -/
theorem completed_only_after_final_pass (work : WorkFn) (db : DB)
    (key start_phase resume_key phase reason : String) (skip : Bool)
    (htr : db.trace = []) :
    ((run_autonomous_addie_pipeline_task work db key start_phase skip).1.trace.contains
        (Event.runStateSet "completed") = true →
      (run_autonomous_addie_pipeline_task work db key start_phase skip).2.status =
        "completed" ∧
      ((run_autonomous_addie_pipeline_task work db key start_phase skip).1.trace.contains
          (Event.gateApplied "evaluate" "pass")
        || (run_autonomous_addie_pipeline_task work db key start_phase
              skip).1.trace.contains (Event.phaseSkipped "evaluate")) = true) ∧
    ((resume_autonomous_addie_pipeline_task work db resume_key).1.trace.contains
        (Event.runStateSet "completed") = true →
      (resume_autonomous_addie_pipeline_task work db resume_key).2.status = "completed" ∧
      ((resume_autonomous_addie_pipeline_task work db resume_key).1.trace.contains
          (Event.gateApplied "evaluate" "pass")
        || (resume_autonomous_addie_pipeline_task work db resume_key).1.trace.contains
             (Event.phaseSkipped "evaluate")) = true) ∧
    ((retry_autonomous_stage_task work db phase).1.trace.contains
        (Event.runStateSet "completed") = true →
      (retry_autonomous_stage_task work db phase).2.status = "completed" ∧
      (retry_autonomous_stage_task work db phase).1.trace.contains
        (Event.gateApplied phase "pass") = true) ∧
    (cancel_autonomous_addie_pipeline_task db reason).1.trace.contains
      (Event.runStateSet "completed") = false :=
  ⟨fun h => start_run_completed_clause work db key start_phase skip htr h,
   fun h => resume_completed_clause work db resume_key htr h,
   fun h => retry_completed_clause work db phase htr h,
   cancel_completed_clause db reason htr⟩

/-- C4 counterexample to the original claim: `RetryStage` on `ingest`
drives `run_state` to `completed` although the evaluate phase's work and
gate never ran. -/
theorem completed_only_after_final_pass_counterexample :
    (retry_autonomous_stage_task happyWork freshDb "ingest").1.project.run_state =
      "completed" ∧
    (retry_autonomous_stage_task happyWork freshDb "ingest").2.status = "completed" ∧
    (retry_autonomous_stage_task happyWork freshDb "ingest").1.trace.contains
      (Event.runStateSet "completed") = true ∧
    (retry_autonomous_stage_task happyWork freshDb "ingest").1.trace.contains
      (Event.workInvoked "evaluate") = false ∧
    (retry_autonomous_stage_task happyWork freshDb "ingest").1.trace.contains
      (Event.gateApplied "evaluate" "pass") = false := by
  decide

/-- C4 witness: the amended theorem applied to a fresh project across all
four operations. -/
theorem completed_only_after_final_pass_witness :
    freshDb.trace = [] ∧
    (((run_autonomous_addie_pipeline_task happyWork freshDb "key-C" "ingest"
          true).1.trace.contains (Event.runStateSet "completed") = true →
      (run_autonomous_addie_pipeline_task happyWork freshDb "key-C" "ingest"
          true).2.status = "completed" ∧
      ((run_autonomous_addie_pipeline_task happyWork freshDb "key-C" "ingest"
            true).1.trace.contains (Event.gateApplied "evaluate" "pass")
        || (run_autonomous_addie_pipeline_task happyWork freshDb "key-C" "ingest"
              true).1.trace.contains (Event.phaseSkipped "evaluate")) = true) ∧
    ((resume_autonomous_addie_pipeline_task happyWork freshDb "key-D").1.trace.contains
        (Event.runStateSet "completed") = true →
      (resume_autonomous_addie_pipeline_task happyWork freshDb "key-D").2.status =
        "completed" ∧
      ((resume_autonomous_addie_pipeline_task happyWork freshDb "key-D").1.trace.contains
          (Event.gateApplied "evaluate" "pass")
        || (resume_autonomous_addie_pipeline_task happyWork freshDb
              "key-D").1.trace.contains (Event.phaseSkipped "evaluate")) = true) ∧
    ((retry_autonomous_stage_task happyWork freshDb "design").1.trace.contains
        (Event.runStateSet "completed") = true →
      (retry_autonomous_stage_task happyWork freshDb "design").2.status = "completed" ∧
      (retry_autonomous_stage_task happyWork freshDb "design").1.trace.contains
        (Event.gateApplied "design" "pass") = true) ∧
    (cancel_autonomous_addie_pipeline_task freshDb "operator stop").1.trace.contains
      (Event.runStateSet "completed") = false) :=
  ⟨rfl, completed_only_after_final_pass happyWork freshDb "key-C" "ingest" "key-D"
    "design" "operator stop" true rfl⟩

end Genie
